import Mathlib

/-! autotier: configuration reader and union passthrough callbacks

A shallow embedding of `src/config.cpp` and `src/fuse_handler.cpp`.

* `std::string` is a `List Char`; `std::string::npos` is `none`.
* `size_t` counters are natural numbers: every decrement in the source is guarded and
  every increment is bounded by a string length, so no counter wraps.
* Member functions that throw `std::out_of_range` return `none`.
-/

set_option linter.dupNamespace false

namespace Autotier

/-- Equality of two runs can be decided when errors and results can be compared. -/
instance instDecidableEqExcept {ε α : Type} [DecidableEq ε] [DecidableEq α] :
    DecidableEq (Except ε α)
  | Except.ok a, Except.ok b =>
    if h : a = b then isTrue (h ▸ rfl) else isFalse (fun h2 => h (Except.ok.inj h2))
  | Except.error a, Except.error b =>
    if h : a = b then isTrue (h ▸ rfl) else isFalse (fun h2 => h (Except.error.inj h2))
  | Except.ok _, Except.error _ => isFalse (fun h => Except.noConfusion h)
  | Except.error _, Except.ok _ => isFalse (fun h => Except.noConfusion h)

/-! ## std::string primitives -/

/-- The expression `str.at(i)`: bounds-checked access, `none` is `std::out_of_range`. -/
def str_at (str : List Char) (i : Nat) : Option Char := str[i]?

/-- The expression `str.substr(pos, len)`: `none` (`std::out_of_range`) when `pos > size()`,
otherwise at most `len` characters starting at `pos`. -/
def substr (str : List Char) (pos len : Nat) : Option (List Char) :=
  if pos ≤ str.length then some ((str.drop pos).take len) else none

/-- The expression `str.find(c)`: index of the first `c`, `none` for `npos`. -/
def str_find (str : List Char) (c : Char) : Option Nat :=
  if str.indexOf c < str.length then some (str.indexOf c) else none

/-- The test `c == ' ' || c == '\t'` used by both loops of `strip_whitespace`. -/
def isBlank (c : Char) : Bool := c == ' ' || c == '\t'

/-! ## strip_whitespace (config.cpp 26-44) -/

/-- The loop `while(strItr && (str.at(strItr) == ' ' || str.at(strItr) == '\t')) strItr--;`
started at `strItr`; the result is the final `strItr`. -/
def stripBackLoop (str : List Char) : Nat → Option Nat
  | 0 => some 0
  | n + 1 =>
    match str_at str (n + 1) with
    | none => none
    | some c => if isBlank c then stripBackLoop str n else some (n + 1)

/-- The condition `strItr < str.length() && (str.at(strItr) == ' ' || str.at(strItr) == '\t')`
of the second loop of `strip_whitespace`; `none` when `at` throws. -/
def stripFrontCond (str : List Char) (strItr : Nat) : Option Bool :=
  if strItr < str.length then (str_at str strItr).map isBlank else some false

/-- The loop `while(strItr < str.length() && (str.at(strItr) == ' ' || ...)) strItr++;`
started at `strItr`, given `fuel` iterations (`none` when they run out or `at` throws). -/
def stripFrontLoop (str : List Char) : Nat → Nat → Option Nat
  | 0, strItr =>
    match stripFrontCond str strItr with
    | some false => some strItr
    | _ => none
  | fuel + 1, strItr =>
    match stripFrontCond str strItr with
    | none => none
    | some false => some strItr
    | some true => stripFrontLoop str fuel (strItr + 1)

/-- The function `strip_whitespace(std::string &str)`: the new value of `str`, or `none` when
an exception escapes. -/
def strip_whitespace (str : List Char) : Option (List Char) :=
  -- back ws
  let strItr := match str_find str '#' with
    | none => str.length
    | some i => i
  let strItr := if strItr ≠ 0 then strItr - 1 else strItr
  match stripBackLoop str strItr with
  | none => none
  | some strItr =>
    match substr str 0 (strItr + 1) with
    | none => none
    | some str =>
      -- front ws
      match stripFrontLoop str str.length 0 with
      | none => none
      | some strItr => substr str strItr (str.length - strItr)

/-- What the comment convention asks of `strip_whitespace`, in the words of the claim: a string
that begins with `#` becomes `"#"`; any other string becomes its part before the first `#`
with trailing and leading spaces and tabs removed. -/
def strip_spec (s : List Char) : List Char :=
  if s.head? = some '#' then ['#']
  else ((s.takeWhile (fun c => c != '#')).rdropWhile isBlank).dropWhile isBlank

/-! ## Input streams and std::getline -/

/-- A `std::ifstream` or `std::stringstream` that is only read with `std::getline`: the
characters not yet extracted and the two state bits the source depends on. -/
structure IStream where
  rest : List Char
  eofbit : Bool
  failbit : Bool
deriving DecidableEq, Repr

/-- A freshly opened stream over `text`. -/
def IStream.open (text : List Char) : IStream := ⟨text, false, false⟩

/-- The conversion `while(config_file)`: `operator bool` is `!fail()`. -/
def IStream.good_for_loop (s : IStream) : Bool := !s.failbit

/-- The call `std::getline(is, str, delim)`. When the stream is not `good()` the sentry fails:
`failbit` is set and `str` keeps its old value. Otherwise `str` is erased and characters are
extracted up to and including `delim` (which is dropped); reaching the end of the input sets
`eofbit`, and `failbit` too when nothing at all was extracted. -/
def getline (is : IStream) (str : List Char) (delim : Char) : IStream × List Char :=
  if is.eofbit || is.failbit then
    ({ is with failbit := true }, str)
  else
    match is.rest.dropWhile (fun c => c != delim) with
    | [] =>
      ({ rest := [], eofbit := true,
         failbit := (is.rest.takeWhile (fun c => c != delim)).isEmpty },
       is.rest.takeWhile (fun c => c != delim))
    | _ :: rest => ({ rest := rest, eofbit := false, failbit := false },
       is.rest.takeWhile (fun c => c != delim))

/-- An upper bound on the number of `getline` calls a loop `while(stream){ getline(stream,
...); ... }` can still make: none once `failbit` is set, one once `eofbit` is set, and
otherwise one per remaining character plus the two calls that meet the end. -/
def stream_budget (is : IStream) : Nat :=
  if is.failbit then 0 else if is.eofbit then 1 else is.rest.length + 2

/-! ## std::stoi and the Global regex -/

/-- The class `\s` of the regex and the `isspace` skipped by `strtol` (C locale). -/
def isSpaceChar (c : Char) : Bool :=
  c == ' ' || c == '\t' || c == '\n' || c == '\x0b' || c == '\x0c' || c == '\r'

/-- What `std::stoi` does with its argument. -/
inductive StoiResult where
  | value (v : Int)
  | invalid_argument
  | out_of_range
deriving DecidableEq, Repr

/-- The value of a run of decimal digits. -/
def digitsValue (ds : List Char) : Int :=
  ds.foldl (fun acc d => acc * 10 + ((d.toNat : Int) - 48)) 0

/-- The call `std::stoi(str)` (base 10): leading white space is skipped, an optional sign is
read, then the longest run of digits; no digit is `std::invalid_argument`, a value that does
not fit a 32-bit `int` is `std::out_of_range`; characters after the digits are ignored. -/
def stoi (str : List Char) : StoiResult :=
  let body := str.dropWhile isSpaceChar
  let signed : Bool × List Char :=
    match body with
    | '-' :: t => (true, t)
    | '+' :: t => (false, t)
    | _ => (false, body)
  let digits := signed.2.takeWhile Char.isDigit
  if digits.isEmpty then StoiResult.invalid_argument
  else
    let v : Int := if signed.1 then - digitsValue digits else digitsValue digits
    if v < -2147483648 ∨ 2147483647 < v then StoiResult.out_of_range else StoiResult.value v

/-- The test `regex_match(id, std::regex("^\\s*[Gg]lobal\\s*$"))`. -/
def is_global_id (id : List Char) : Bool :=
  match id.dropWhile isSpaceChar with
  | g :: 'l' :: 'o' :: 'b' :: 'a' :: 'l' :: tail => (g == 'G' || g == 'g') && tail.all isSpaceChar
  | _ => false

/-- The expression `line.substr(1, line.find(']') - 1)` on a 64-bit `size_t`: `npos - 1`
is `2^64 - 2`. -/
def section_id (line : List Char) : Option (List Char) :=
  substr line 1
    (((match str_find line ']' with
        | some i => i
        | none => 2 ^ 64 - 1) + (2 ^ 64 - 1)) % 2 ^ 64)

/-! ## Tier and Config -/

/-- Modelled from the spec: class `Tier` is declared in `tier.hpp`, which is not among the
sources. A tier has an identifier (`id()`), a backing directory (`dir`, set by `path(v)` and
read by `path()`) and an integer watermark (`watermark(v)` / `watermark()`). -/
structure Tier where
  id : String
  dir : String
  watermark : Int
deriving DecidableEq, Repr

/-- Modelled from the spec: the constructor `Tier(id)` of `tier.hpp` (absent), as used by
`tiers.emplace_back(id)`. It leaves the path empty; the watermark of a tier that never gets a
`Watermark` line is whatever the constructor leaves there, the parameter `wm0`. -/
def Tier.create (wm0 : Int) (id : List Char) : Tier :=
  { id := String.mk id, dir := "", watermark := wm0 }

/-- The data members of `Config` that the reader fills. -/
structure Config where
  log_level_ : Int
  tier_period_s_ : Int
deriving DecidableEq, Repr

/-- Why a run of the reader did not come back. -/
inductive Abort where
  | uncaught_exception
  | out_of_fuel
deriving DecidableEq, Repr

/-- The macro `EOF`. -/
def EOF : Int := -1

/-! ## Config::load_global (config.cpp 114-151) -/

/-- The variables `load_global` works on: the shared stream, its locals `line`, `key`,
`value`, the reference parameter `id`, and the two members it assigns. -/
structure GlobalState where
  config_file : IStream
  line : List Char
  key : List Char
  value : List Char
  id : List Char
  cfg : Config
deriving DecidableEq, Repr

/-- The block `try{ x = stoi(value); }catch(const std::invalid_argument &){ x = -1; }`:
only `invalid_argument` is caught, `out_of_range` escapes. -/
def stoi_or_minus_one (value : List Char) : Except Abort Int :=
  match stoi value with
  | StoiResult.value v => pure v
  | StoiResult.invalid_argument => pure (-1)
  | StoiResult.out_of_range => throw Abort.uncaught_exception

/-- The statements of `load_global` after a line that is neither blank, comment nor header:
split it at the first `=`, strip both halves, assign `Log Level` / `Tier Period`. A
`getline` that finds the stream at its end leaves `value` as it was. -/
def load_global_assign (g : GlobalState) : Except Abort GlobalState :=
  let line_stream := IStream.open g.line
  let r1 := getline line_stream g.key '='
  let r2 := getline r1.1 g.value '\n'
  match strip_whitespace r1.2, strip_whitespace r2.2 with
  | some key, some value =>
    if key = "Log Level".data then do
      let v ← stoi_or_minus_one value
      pure { g with key := key, value := value, cfg := { g.cfg with log_level_ := v } }
    else if key = "Tier Period".data then do
      let v ← stoi_or_minus_one value
      pure { g with key := key, value := value, cfg := { g.cfg with tier_period_s_ := v } }
    else pure { g with key := key, value := value }
  | _, _ => throw Abort.uncaught_exception

/-- The loop `while(config_file){ ... }` of `load_global` followed by `return EOF;`: the
returned `int` and the variables at that point. -/
def load_global_loop : Nat → GlobalState → Except Abort (Int × GlobalState)
  | fuel, g =>
    if !g.config_file.good_for_loop then pure (EOF, g)
    else
      let r := getline g.config_file g.line '\n'
      match strip_whitespace r.2 with
      | none => throw Abort.uncaught_exception
      | some line =>
        let g1 := { g with config_file := r.1, line := line }
        if line.isEmpty || line.head? = some '#' then
          match fuel with
          | 0 => throw Abort.out_of_fuel
          | fuel + 1 => load_global_loop fuel g1
        else if line.head? = some '[' then
          match section_id line with
          | none => throw Abort.uncaught_exception
          | some id => pure (0, { g1 with id := id })
        else
          match load_global_assign g1 with
          | Except.error e => throw e
          | Except.ok g2 =>
            match fuel with
            | 0 => throw Abort.out_of_fuel
            | fuel + 1 => load_global_loop fuel g2

/-- The call `load_global(config_file, id)`: fresh locals, and as many iterations as the
stream can still feed (each one extracts a character or ends the stream). -/
def load_global (cfg : Config) (config_file : IStream) (id : List Char) :
    Except Abort (Int × GlobalState) :=
  load_global_loop (config_file.rest.length + 2)
    { config_file := config_file, line := [], key := [], value := [], id := id, cfg := cfg }

/-! ## Config::Config (config.cpp 46-112), the reading loop -/

/-- The variables of the constructor's reading loop. `tptr` is either `nullptr` (`false`) or
the address of `tiers.back()` (`true`): it is assigned only right after `emplace_back`. -/
structure ReadState where
  config_file : IStream
  line : List Char
  key : List Char
  value : List Char
  tiers : List Tier
  tptr : Bool
  cfg : Config
deriving DecidableEq, Repr

/-- Apply `f` to `tiers.back()`, the tier `tptr` points at. -/
def update_back (tiers : List Tier) (f : Tier → Tier) : List Tier :=
  match tiers.reverse with
  | [] => []
  | t :: before => (f t :: before).reverse

/-- The branch `else if(tptr){ ... }` of the reading loop: split the line at the first `=`,
strip both halves, skip unassigned fields, assign `Path` / `Watermark` of the current tier. -/
def tier_assign (st : ReadState) : Except Abort ReadState :=
  let line_stream := IStream.open st.line
  let r1 := getline line_stream st.key '='
  let r2 := getline r1.1 st.value '\n'
  match strip_whitespace r1.2, strip_whitespace r2.2 with
  | some key, some value =>
    let st1 := { st with key := key, value := value }
    if key.isEmpty || value.isEmpty then pure st1
    else if key = "Path".data then
      pure { st1 with tiers := update_back st1.tiers (fun t => { t with dir := String.mk value }) }
    else if key = "Watermark".data then do
      let v ← stoi_or_minus_one value
      pure { st1 with tiers := update_back st1.tiers (fun t => { t with watermark := v }) }
    else pure st1
  | _, _ => throw Abort.uncaught_exception

/-- The branch `if(line.front() == '['){ ... }` of the reading loop. The flag is `true` for
`break` (the Global section ran to the end of the file; what `load_global` read and assigned
stays), otherwise the state is the one after `tiers.emplace_back(id); tptr = &tiers.back();`. -/
def open_section (wm0 : Int) (st : ReadState) : Except Abort (Bool × ReadState) :=
  match section_id st.line with
  | none => throw Abort.uncaught_exception
  | some id =>
    if is_global_id id then
      match load_global st.cfg st.config_file id with
      | Except.error e => throw e
      | Except.ok (ret, g) =>
        if ret = EOF then pure (true, { st with config_file := g.config_file, cfg := g.cfg })
        else pure (false, { st with config_file := g.config_file, cfg := g.cfg,
                                    tiers := st.tiers ++ [Tier.create wm0 g.id], tptr := true })
    else pure (false, { st with tiers := st.tiers ++ [Tier.create wm0 id], tptr := true })

/-- The loop `while(config_file){ ... }` of the constructor. -/
def read_loop (wm0 : Int) : Nat → ReadState → Except Abort ReadState
  | fuel, st =>
    if !st.config_file.good_for_loop then pure st
    else
      let r := getline st.config_file st.line '\n'
      match strip_whitespace r.2 with
      | none => throw Abort.uncaught_exception
      | some line =>
        let st1 := { st with config_file := r.1, line := line }
        if line.isEmpty || line.head? = some '#' then
          match fuel with
          | 0 => throw Abort.out_of_fuel
          | fuel + 1 => read_loop wm0 fuel st1
        else if line.head? = some '[' then
          match open_section wm0 st1 with
          | Except.error e => throw e
          | Except.ok (true, st2) => pure st2
          | Except.ok (false, st2) =>
            match fuel with
            | 0 => throw Abort.out_of_fuel
            | fuel + 1 => read_loop wm0 fuel st2
        else if st1.tptr then
          match tier_assign st1 with
          | Except.error e => throw e
          | Except.ok st2 =>
            match fuel with
            | 0 => throw Abort.out_of_fuel
            | fuel + 1 => read_loop wm0 fuel st2
        else
          match fuel with
          | 0 => throw Abort.out_of_fuel
          | fuel + 1 => read_loop wm0 fuel st1

/-! ## Config::verify (config.cpp 176-207) -/

/-- One call `Logging::log.error(msg, false)` (`exit_arg = some false`) or
`Logging::log.error(msg)` (`exit_arg = none`); the logger itself is in `alert.hpp`. -/
structure ErrorCall where
  msg : String
  exit_arg : Option Bool
deriving DecidableEq, Repr

/-- The local `errors` of `verify` and the reports made so far. -/
structure VerifyState where
  errors : Bool
  log : List ErrorCall
deriving DecidableEq, Repr

/-- The statement `Logging::log.error(msg, false); errors = true;`. -/
def VerifyState.report (v : VerifyState) (msg : String) : VerifyState :=
  { errors := true, log := v.log ++ [{ msg := msg, exit_arg := some false }] }

/-- The body of `for(const Tier &tier : tiers)` in `verify`; `is_directory` answers
`fs::is_directory(tier.path())`. -/
def verify_tier (is_directory : String → Bool) (v : VerifyState) (tier : Tier) : VerifyState :=
  let v1 := if !is_directory tier.dir then
      v.report (tier.id ++ ": Not a directory: " ++ tier.dir) else v
  if tier.watermark > 100 ∨ tier.watermark < 0 then
    v1.report (tier.id ++ ": Invalid watermark: " ++ toString tier.watermark)
  else v1

/-- The function `Config::verify(config_path, tiers)`: the final value of `errors` and the
reports, the last of which (made only `if(errors)`) is the call without `false`. -/
def Config.verify (cfg : Config) (is_directory : String → Bool) (config_path : String)
    (tiers : List Tier) : VerifyState :=
  let v0 : VerifyState := { errors := false, log := [] }
  let v1 :=
    if tiers.isEmpty then v0.report "No tiers defined."
    else if tiers.length = 1 then v0.report "Only one tier is defined. Two or more are needed."
    else tiers.foldl (verify_tier is_directory) v0
  let v2 := if cfg.log_level_ = -1 then v1.report "Invalid log level. (Log Level)" else v1
  let v3 := if cfg.tier_period_s_ = -1 then v2.report "Invalid tier period. (Tier Period)" else v2
  if v3.errors then
    { v3 with log := v3.log ++
        [{ msg := "Please fix these mistakes in " ++ config_path, exit_arg := none }] }
  else v3

/-- What the constructor leaves behind: the tier list, the members, and what `verify` said. -/
structure Loaded where
  tiers : List Tier
  cfg : Config
  verdict : VerifyState
deriving DecidableEq, Repr

/-- The constructor `Config::Config(config_path, tiers, config_overrides)` up to and
including `verify`, on a configuration file whose content is `text`. `cfg0` holds the member
initialisers of `config.hpp` (absent), `log_level_override` is
`config_overrides.log_level_override` (`none` when not overridden). -/
def Config.Config (cfg0 : Config) (wm0 : Int) (is_directory : String → Bool)
    (log_level_override : Option Int) (config_path : String) (text : List Char)
    (tiers : List Tier) : Except Abort Loaded :=
  match read_loop wm0 (text.length + 2)
      { config_file := IStream.open text, line := [], key := [], value := [],
        tiers := tiers, tptr := false, cfg := cfg0 } with
  | Except.error e => throw e
  | Except.ok st =>
    let cfg := match log_level_override with
      | some v => { st.cfg with log_level_ := v }
      | none => st.cfg
    pure { tiers := st.tiers, cfg := cfg,
           verdict := Config.verify cfg is_directory config_path st.tiers }

/-! ## The resolver (fuse_handler.cpp 30-40) -/

/-- The expression `dir / fs::path(path)` of Boost.Filesystem (version 3 semantics): an empty
right operand changes nothing; otherwise the right operand is appended, after a `/` when it
does not begin with one and the left operand is neither empty nor ends with one. -/
def fs_path_append (dir path : String) : String :=
  if path.data.isEmpty then dir
  else if path.data.head? = some '/' then String.mk (dir.data ++ path.data)
  else if dir.data.isEmpty || dir.data.getLast? = some '/' then String.mk (dir.data ++ path.data)
  else String.mk (dir.data ++ '/' :: path.data)

/-- A `const char *` as `find_backend_path` returns it. `literal chars` points at a string
literal, which lives for the whole run. `dangling was` is the result of
`(titr->dir/fs::path(path)).c_str()`: it points into the buffer of a temporary `fs::path`
that held `was` and is destroyed when the `return` statement completes, so the characters a
caller finds there are not determined by the program. -/
inductive CStr where
  | literal (chars : String)
  | dangling (was : String)
deriving DecidableEq, Repr

/-- The loop `for(titr = tiers_ptr->begin(); titr != tiers_ptr->end(); ++titr)` of
`find_backend_path` followed by the final `return "";`. `path_exists` answers
`exists(...)` of Boost.Filesystem. -/
def find_backend_loop (path_exists : String → Bool) (path : String) : List Tier → CStr
  | [] => CStr.literal ""
  | titr :: rest =>
    if path_exists (fs_path_append titr.dir path) then
      CStr.dangling (fs_path_append titr.dir path)
    else find_backend_loop path_exists path rest

/-- The function `find_backend_path(path)`; `tiers_ptr` is the global of that name, `none`
for `NULL`. -/
def find_backend_path (path_exists : String → Bool) (tiers_ptr : Option (List Tier))
    (path : String) : CStr :=
  match tiers_ptr with
  | some tiers => find_backend_loop path_exists path tiers
  | none => CStr.literal ""

/-- The characters a callee reads when it is handed the pointer: those of the literal, or,
for a pointer into a destroyed temporary, whatever `freed` says is found in storage that
held `was`. The runs in which such a read yields a string are modelled; `freed` is free. -/
def read_cstr (freed : String → String) : CStr → String
  | CStr.literal chars => chars
  | CStr.dangling was => freed was

/-! ## System calls -/

/-- One call handed to the operating system (or to the C library), with the arguments the
callback passes. Buffers that the kernel fills are left out. -/
inductive Call where
  | lstat (path : String)
  | access (path : String) (mask : Int)
  | readlink (path : String) (bufsiz : Nat)
  | opendir (path : String)
  | closedir (path : String)
  | mknod_wrapper (path : String) (mode rdev : Int)
  | mkdir (path : String) (mode : Int)
  | unlink (path : String)
  | rmdir (path : String)
  | symlink (target linkpath : String)
  | rename (oldpath newpath : String)
  | link (oldpath newpath : String)
  | chmod (path : String) (mode : Int)
  | lchown (path : String) (uid gid : Int)
  | ftruncate (fd size : Int)
  | truncate (path : String) (size : Int)
  | utimensat (path : String) (atime mtime : Int)
  | open_ (path : String) (flags : Int) (mode : Option Int)
  | pread (fd : Int) (size : Nat) (offset : Int)
  | pwrite (fd : Int) (buf : List Nat) (size : Nat) (offset : Int)
  | statvfs (path : String)
  | close (fd : Int)
  | posix_fallocate (fd offset length : Int)
  | lsetxattr (path name : String) (value : List Nat) (size : Nat) (flags : Int)
  | lgetxattr (path name : String) (size : Nat)
  | llistxattr (path : String) (size : Nat)
  | lremovexattr (path name : String)
  | copy_file_range (fd_in offset_in fd_out offset_out : Int) (len : Nat) (flags : Int)
  | lseek (fd offset whence : Int)
deriving DecidableEq, Repr

/-- How a call ends: it succeeds with a return value, or fails with an error number. -/
inductive Outcome where
  | ok (ret : Int)
  | err (errno : Int)
deriving DecidableEq, Repr

/-- The structure `struct dirent`, the fields `at_readdir` reads. -/
structure Dirent where
  d_ino : Nat
  d_type : Nat
  d_name : String
deriving DecidableEq, Repr

/-- The environment the callbacks run in, over a state `σ` of the backing file systems:
what `exists(p)` answers, how each call ends and what it leaves behind, the entries that
successive `readdir(dp)` calls deliver for a directory that was opened, and what is read
from the storage of a destroyed `fs::path` that held a given string (see `read_cstr`). -/
structure Kernel (σ : Type) where
  path_exists : σ → String → Bool
  syscall : Call → σ → Outcome × σ
  dir_entries : σ → String → List Dirent
  freed : σ → String → String

/-- The state a callback runs in: the backing file systems, the thread's `errno`, and the
calls issued so far. -/
structure TState (σ : Type) where
  world : σ
  errno : Int
  trace : List Call

/-- Issue a call the POSIX way: the value on success; `-1` with `errno` set on failure. -/
def sys {σ : Type} (k : Kernel σ) (c : Call) (s : TState σ) : Int × TState σ :=
  match k.syscall c s.world with
  | (Outcome.ok ret, w) => (ret, { world := w, errno := s.errno, trace := s.trace ++ [c] })
  | (Outcome.err e, w) => (-1, { world := w, errno := e, trace := s.trace ++ [c] })

/-- Issue a call that returns its error number instead of setting `errno`
(`posix_fallocate`). -/
def sys_direct {σ : Type} (k : Kernel σ) (c : Call) (s : TState σ) : Int × TState σ :=
  match k.syscall c s.world with
  | (Outcome.ok ret, w) => (ret, { world := w, errno := s.errno, trace := s.trace ++ [c] })
  | (Outcome.err e, w) => (e, { world := w, errno := s.errno, trace := s.trace ++ [c] })

/-- The argument `find_backend_path(path)` of a call, as the callee reads it: the pointer
`find_backend_path` returns against the current state of the backing file systems, followed
through `read_cstr`. -/
def resolve {σ : Type} (k : Kernel σ) (tiers_ptr : Option (List Tier)) (s : TState σ)
    (path : String) : String :=
  read_cstr (k.freed s.world) (find_backend_path (k.path_exists s.world) tiers_ptr path)

/-- The tail `if (res == -1) return -errno; return 0;` shared by most callbacks. -/
def ret_zero {σ : Type} (r : Int × TState σ) : Int × TState σ :=
  if r.1 = -1 then (- r.2.errno, r.2) else (0, r.2)

/-- The tail `if (res == -1) return -errno; return res;`. -/
def ret_res {σ : Type} (r : Int × TState σ) : Int × TState σ :=
  if r.1 = -1 then (- r.2.errno, r.2) else (r.1, r.2)

/-- The structure `struct fuse_file_info`, the fields the callbacks use. `fh` holds a
descriptor stored by `at_open` / `at_create`, so it is kept as the `int` it came from. -/
structure fuse_file_info where
  flags : Int
  fh : Int
deriving DecidableEq, Repr

def EINVAL : Int := 22
def EOPNOTSUPP : Int := 95
def O_RDONLY : Int := 0
def O_WRONLY : Int := 1

/-! ## The callbacks (fuse_handler.cpp 98-527)

Each callback takes the kernel, the global `tiers_ptr`, its C arguments and the state it
starts in, and gives back its return value and the state it leaves. -/

section Callbacks

variable {σ : Type}

def at_getattr (k : Kernel σ) (tiers_ptr : Option (List Tier)) (path : String)
    (s : TState σ) : Int × TState σ :=
  ret_zero (sys k (Call.lstat (resolve k tiers_ptr s path)) s)

def at_access (k : Kernel σ) (tiers_ptr : Option (List Tier)) (path : String) (mask : Int)
    (s : TState σ) : Int × TState σ :=
  ret_zero (sys k (Call.access (resolve k tiers_ptr s path) mask) s)

/-- The callback `at_readlink`; `size - 1` is computed on a 64-bit `size_t`. -/
def at_readlink (k : Kernel σ) (tiers_ptr : Option (List Tier)) (path : String) (size : Nat)
    (s : TState σ) : Int × TState σ :=
  ret_zero (sys k (Call.readlink (resolve k tiers_ptr s path) ((size + (2 ^ 64 - 1)) % 2 ^ 64)) s)

/-- What `at_readdir` hands to `filler`: the name and the two fields of `st` it sets. -/
structure FillArg where
  name : String
  st_ino : Nat
  st_mode : Nat
deriving DecidableEq, Repr

/-- The loop `while ((de = readdir(dp)) != NULL) { ...; if (filler(...)) break; }` over the
entries `readdir` delivers; `filler` returns the buffer and its `int` result. -/
def readdir_loop {β : Type} (filler : β → FillArg → β × Int) : List Dirent → β → β
  | [], buf => buf
  | de :: rest, buf =>
    let r := filler buf { name := de.d_name, st_ino := de.d_ino, st_mode := de.d_type <<< 12 }
    if r.2 ≠ 0 then r.1 else readdir_loop filler rest r.1

/-- The callback `at_readdir`: return value, the buffer `filler` built, final state. -/
def at_readdir {β : Type} (k : Kernel σ) (tiers_ptr : Option (List Tier)) (path : String)
    (filler : β → FillArg → β × Int) (buf : β) (s : TState σ) : Int × β × TState σ :=
  let dir := resolve k tiers_ptr s path
  match k.syscall (Call.opendir dir) s.world with
  | (Outcome.err e, w) =>
    (- e, buf, { world := w, errno := e, trace := s.trace ++ [Call.opendir dir] })
  | (Outcome.ok _, w) =>
    (0, readdir_loop filler (k.dir_entries w dir) buf,
      (sys k (Call.closedir dir)
        { world := w, errno := s.errno, trace := s.trace ++ [Call.opendir dir] }).2)

/-- The callback `at_mknod`. Modelled from the spec: `mknod_wrapper` is defined in
`passthrough_helpers.h`, which is not among the sources; it is one delegated call on the
path it is given, `-1` with `errno` set on failure. -/
def at_mknod (k : Kernel σ) (tiers_ptr : Option (List Tier)) (path : String) (mode rdev : Int)
    (s : TState σ) : Int × TState σ :=
  ret_zero (sys k (Call.mknod_wrapper (resolve k tiers_ptr s path) mode rdev) s)

def at_mkdir (k : Kernel σ) (tiers_ptr : Option (List Tier)) (path : String) (mode : Int)
    (s : TState σ) : Int × TState σ :=
  ret_zero (sys k (Call.mkdir (resolve k tiers_ptr s path) mode) s)

def at_unlink (k : Kernel σ) (tiers_ptr : Option (List Tier)) (path : String)
    (s : TState σ) : Int × TState σ :=
  ret_zero (sys k (Call.unlink (resolve k tiers_ptr s path)) s)

def at_rmdir (k : Kernel σ) (tiers_ptr : Option (List Tier)) (path : String)
    (s : TState σ) : Int × TState σ :=
  ret_zero (sys k (Call.rmdir (resolve k tiers_ptr s path)) s)

def at_symlink (k : Kernel σ) (tiers_ptr : Option (List Tier)) (from_ to_ : String)
    (s : TState σ) : Int × TState σ :=
  ret_zero (sys k (Call.symlink (resolve k tiers_ptr s from_) (resolve k tiers_ptr s to_)) s)

def at_rename (k : Kernel σ) (tiers_ptr : Option (List Tier)) (from_ to_ : String) (flags : Int)
    (s : TState σ) : Int × TState σ :=
  if flags ≠ 0 then (- EINVAL, s)
  else ret_zero (sys k (Call.rename (resolve k tiers_ptr s from_) (resolve k tiers_ptr s to_)) s)

def at_link (k : Kernel σ) (tiers_ptr : Option (List Tier)) (from_ to_ : String)
    (s : TState σ) : Int × TState σ :=
  ret_zero (sys k (Call.link (resolve k tiers_ptr s from_) (resolve k tiers_ptr s to_)) s)

def at_chmod (k : Kernel σ) (tiers_ptr : Option (List Tier)) (path : String) (mode : Int)
    (s : TState σ) : Int × TState σ :=
  ret_zero (sys k (Call.chmod (resolve k tiers_ptr s path) mode) s)

def at_chown (k : Kernel σ) (tiers_ptr : Option (List Tier)) (path : String) (uid gid : Int)
    (s : TState σ) : Int × TState σ :=
  ret_zero (sys k (Call.lchown (resolve k tiers_ptr s path) uid gid) s)

def at_truncate (k : Kernel σ) (tiers_ptr : Option (List Tier)) (path : String) (size : Int)
    (fi : Option fuse_file_info) (s : TState σ) : Int × TState σ :=
  match fi with
  | some f => ret_zero (sys k (Call.ftruncate f.fh size) s)
  | none => ret_zero (sys k (Call.truncate (resolve k tiers_ptr s path) size) s)

def at_utimens (k : Kernel σ) (tiers_ptr : Option (List Tier)) (path : String)
    (atime mtime : Int) (s : TState σ) : Int × TState σ :=
  ret_zero (sys k (Call.utimensat (resolve k tiers_ptr s path) atime mtime) s)

/-- The callback `at_create`: return value, `*fi` afterwards, final state. -/
def at_create (k : Kernel σ) (tiers_ptr : Option (List Tier)) (path : String) (mode : Int)
    (fi : fuse_file_info) (s : TState σ) : Int × fuse_file_info × TState σ :=
  let r := sys k (Call.open_ (resolve k tiers_ptr s path) fi.flags (some mode)) s
  if r.1 = -1 then (- r.2.errno, fi, r.2)
  else (0, { fi with fh := r.1 }, r.2)

/-- The callback `at_open`: return value, `*fi` afterwards, final state. -/
def at_open (k : Kernel σ) (tiers_ptr : Option (List Tier)) (path : String)
    (fi : fuse_file_info) (s : TState σ) : Int × fuse_file_info × TState σ :=
  let r := sys k (Call.open_ (resolve k tiers_ptr s path) fi.flags none) s
  if r.1 = -1 then (- r.2.errno, fi, r.2)
  else (0, { fi with fh := r.1 }, r.2)

/-- The statement `if(fi == NULL) fd = open(find_backend_path(path), flags); else fd =
fi->fh;` shared by the descriptor callbacks: `fd` and the state after it. -/
def fd_of (k : Kernel σ) (tiers_ptr : Option (List Tier)) (path : String) (flags : Int)
    (fi : Option fuse_file_info) (s : TState σ) : Int × TState σ :=
  match fi with
  | none => sys k (Call.open_ (resolve k tiers_ptr s path) flags none) s
  | some f => (f.fh, s)

/-- The statement `if(fi == NULL) close(fd);`. -/
def close_if_null (k : Kernel σ) (fi : Option fuse_file_info) (fd : Int) (s : TState σ) :
    TState σ :=
  match fi with
  | none => (sys k (Call.close fd) s).2
  | some _ => s

/-- The statements `res = f(...); if (res == -1) res = -errno;`. -/
def res_or_errno (r : Int × TState σ) : Int := if r.1 = -1 then - r.2.errno else r.1

def at_read (k : Kernel σ) (tiers_ptr : Option (List Tier)) (path : String) (size : Nat)
    (offset : Int) (fi : Option fuse_file_info) (s : TState σ) : Int × TState σ :=
  let fd := fd_of k tiers_ptr path O_RDONLY fi s
  if fd.1 = -1 then (- fd.2.errno, fd.2)
  else
    let r := sys k (Call.pread fd.1 size offset) fd.2
    (res_or_errno r, close_if_null k fi fd.1 r.2)

def at_write (k : Kernel σ) (tiers_ptr : Option (List Tier)) (path : String) (buf : List Nat)
    (size : Nat) (offset : Int) (fi : Option fuse_file_info) (s : TState σ) : Int × TState σ :=
  let fd := fd_of k tiers_ptr path O_WRONLY fi s
  if fd.1 = -1 then (- fd.2.errno, fd.2)
  else
    let r := sys k (Call.pwrite fd.1 buf size offset) fd.2
    (res_or_errno r, close_if_null k fi fd.1 r.2)

def at_statfs (k : Kernel σ) (tiers_ptr : Option (List Tier)) (path : String)
    (s : TState σ) : Int × TState σ :=
  ret_zero (sys k (Call.statvfs (resolve k tiers_ptr s path)) s)

/-- The callback `at_release`: `close(fi->fh); return 0;`. -/
def at_release (k : Kernel σ) (fi : fuse_file_info) (s : TState σ) : Int × TState σ :=
  (0, (sys k (Call.close fi.fh) s).2)

/-- The callback `at_fsync`: "Just a stub", `return 0;`. -/
def at_fsync (s : TState σ) : Int × TState σ := (0, s)

def at_fallocate (k : Kernel σ) (tiers_ptr : Option (List Tier)) (path : String)
    (mode offset length : Int) (fi : Option fuse_file_info) (s : TState σ) : Int × TState σ :=
  if mode ≠ 0 then (- EOPNOTSUPP, s)
  else
    let fd := fd_of k tiers_ptr path O_WRONLY fi s
    if fd.1 = -1 then (- fd.2.errno, fd.2)
    else
      let r := sys_direct k (Call.posix_fallocate fd.1 offset length) fd.2
      (- r.1, close_if_null k fi fd.1 r.2)

def at_setxattr (k : Kernel σ) (tiers_ptr : Option (List Tier)) (path name : String)
    (value : List Nat) (size : Nat) (flags : Int) (s : TState σ) : Int × TState σ :=
  ret_zero (sys k (Call.lsetxattr (resolve k tiers_ptr s path) name value size flags) s)

def at_getxattr (k : Kernel σ) (tiers_ptr : Option (List Tier)) (path name : String)
    (size : Nat) (s : TState σ) : Int × TState σ :=
  ret_res (sys k (Call.lgetxattr (resolve k tiers_ptr s path) name size) s)

def at_listxattr (k : Kernel σ) (tiers_ptr : Option (List Tier)) (path : String)
    (size : Nat) (s : TState σ) : Int × TState σ :=
  ret_res (sys k (Call.llistxattr (resolve k tiers_ptr s path) size) s)

def at_removexattr (k : Kernel σ) (tiers_ptr : Option (List Tier)) (path name : String)
    (s : TState σ) : Int × TState σ :=
  ret_zero (sys k (Call.lremovexattr (resolve k tiers_ptr s path) name) s)

/-- The callback `at_copy_file_range`. Both descriptors are closed at the end whether or not
they came from a handle, and `close(fd_in)` runs before `-errno` is read when `fd_out` is
`-1`. -/
def at_copy_file_range (k : Kernel σ) (tiers_ptr : Option (List Tier)) (path_in : String)
    (fi_in : Option fuse_file_info) (offset_in : Int) (path_out : String)
    (fi_out : Option fuse_file_info) (offset_out : Int) (len : Nat) (flags : Int)
    (s : TState σ) : Int × TState σ :=
  let fd_in := fd_of k tiers_ptr path_in O_RDONLY fi_in s
  if fd_in.1 = -1 then (- fd_in.2.errno, fd_in.2)
  else
    let fd_out := fd_of k tiers_ptr path_out O_WRONLY fi_out fd_in.2
    if fd_out.1 = -1 then
      let c := sys k (Call.close fd_in.1) fd_out.2
      (- c.2.errno, c.2)
    else
      let r := sys k (Call.copy_file_range fd_in.1 offset_in fd_out.1 offset_out len flags)
        fd_out.2
      let c1 := sys k (Call.close fd_in.1) r.2
      let c2 := sys k (Call.close fd_out.1) c1.2
      (res_or_errno r, c2.2)

def at_lseek (k : Kernel σ) (tiers_ptr : Option (List Tier)) (path : String)
    (off whence : Int) (fi : Option fuse_file_info) (s : TState σ) : Int × TState σ :=
  let fd := fd_of k tiers_ptr path O_RDONLY fi s
  if fd.1 = -1 then (- fd.2.errno, fd.2)
  else
    let r := sys k (Call.lseek fd.1 off whence) fd.2
    (res_or_errno r, close_if_null k fi fd.1 r.2)

end Callbacks

/-- The call `c`, issued from state `s`, fails with error number `e`. -/
def fails {σ : Type} (k : Kernel σ) (c : Call) (s : TState σ) (e : Int) : Prop :=
  ∃ w, k.syscall c s.world = (Outcome.err e, w)

/-- The call `c`, issued from state `s`, succeeds. -/
def succeeds {σ : Type} (k : Kernel σ) (c : Call) (s : TState σ) : Prop :=
  ∃ ret w, k.syscall c s.world = (Outcome.ok ret, w)

/-! ## Concrete scenarios -/

/-- Tier 0 of the scenarios. -/
def fast_tier : Tier := { id := "fast", dir := "/ssd", watermark := 70 }

/-- Tier 1 of the scenarios. -/
def slow_tier : Tier := { id := "slow", dir := "/hdd", watermark := 90 }

/-- A fast and a slow tier, in configured order. -/
def two_tiers : List Tier := [fast_tier, slow_tier]

/-- A filler whose buffer never fills: it appends the name and returns `0`. -/
def collect_names (buf : List String) (a : FillArg) : List String × Int := (buf ++ [a.name], 0)

/-- A callback's starting state over a stateless world: `errno` is `0`, nothing issued yet. -/
def start : TState Unit := { world := (), errno := 0, trace := [] }

/-- Freed storage that reads as the empty string. -/
def reads_empty (_was : String) : String := ""

/-- The scenario "Directory union": tier 0 holds `/d/a`, tier 1 holds `/d/b`; `opendir` on
any other path, the empty one included, fails with `ENOENT` (2). The parameter says what is
read from freed storage. -/
def union_kernel_with (freed : String → String) : Kernel Unit where
  path_exists := fun _ p => p = "/ssd/d" || p = "/ssd/d/a" || p = "/hdd/d" || p = "/hdd/d/b"
  syscall := fun c w =>
    match c with
    | Call.opendir p => if p = "/ssd/d" ∨ p = "/hdd/d" then (Outcome.ok 1, w) else (Outcome.err 2, w)
    | _ => (Outcome.ok 0, w)
  dir_entries := fun _ p =>
    if p = "/ssd/d" then
      [{ d_ino := 1, d_type := 4, d_name := "." }, { d_ino := 2, d_type := 4, d_name := ".." },
       { d_ino := 10, d_type := 8, d_name := "a" }]
    else if p = "/hdd/d" then
      [{ d_ino := 3, d_type := 4, d_name := "." }, { d_ino := 4, d_type := 4, d_name := ".." },
       { d_ino := 11, d_type := 8, d_name := "b" }]
    else []
  freed := fun _ => freed

/-- The directory-union scenario with freed storage reading as empty. -/
def union_kernel : Kernel Unit := union_kernel_with reads_empty

/-- A file `/f` present on both tiers: `lstat` succeeds on `/ssd/f` and `/hdd/f` and fails
with `ENOENT` (2) on every other path. The parameter says what is read from freed storage. -/
def both_tiers_kernel_with (freed : String → String) : Kernel Unit where
  path_exists := fun _ p => p = "/ssd/f" || p = "/hdd/f"
  syscall := fun c w =>
    match c with
    | Call.lstat p => if p = "/ssd/f" ∨ p = "/hdd/f" then (Outcome.ok 0, w) else (Outcome.err 2, w)
    | _ => (Outcome.ok 0, w)
  dir_entries := fun _ _ => []
  freed := fun _ => freed

/-- Two empty tiers: only the two backing directories exist; a call on a path that does not
exist, the empty path included, fails with `ENOENT` (2), a call that would create an entry
in an existing directory succeeds and `open` yields descriptor 3. -/
def empty_tiers_kernel : Kernel Unit where
  path_exists := fun _ p => p = "/ssd" || p = "/hdd"
  syscall := fun c w =>
    match c with
    | Call.mkdir p _ => if p = "/ssd/new" ∨ p = "/hdd/new" then (Outcome.ok 0, w) else (Outcome.err 2, w)
    | Call.mknod_wrapper p _ _ =>
      if p = "/ssd/new" ∨ p = "/hdd/new" then (Outcome.ok 0, w) else (Outcome.err 2, w)
    | Call.open_ p _ _ => if p = "/ssd/new" ∨ p = "/hdd/new" then (Outcome.ok 3, w) else (Outcome.err 2, w)
    | _ => (Outcome.ok 0, w)
  dir_entries := fun _ _ => []
  freed := fun _ => reads_empty

/-- A kernel in which `close` fails with `EIO` (5), opening for writing fails with `EACCES`
(13), and every other call succeeds. -/
def failing_close_kernel : Kernel Unit where
  path_exists := fun _ _ => true
  syscall := fun c w =>
    match c with
    | Call.close _ => (Outcome.err 5, w)
    | Call.open_ _ 1 _ => (Outcome.err 13, w)
    | _ => (Outcome.ok 0, w)
  dir_entries := fun _ _ => []
  freed := fun _ => reads_empty

/-- A configuration file with two valid tiers and `Tier Period = 0`. -/
def period_zero_text : List Char :=
  ("[Global]\nLog Level = 1\nTier Period = 0\n" ++
   "[fast]\nPath = /ssd\nWatermark = 70\n" ++
   "[slow]\nPath = /hdd\nWatermark = 90\n").data

/-- The same configuration file with `Tier Period = -5`. -/
def period_negative_text : List Char :=
  ("[Global]\nLog Level = 1\nTier Period = -5\n" ++
   "[fast]\nPath = /ssd\nWatermark = 70\n" ++
   "[slow]\nPath = /hdd\nWatermark = 90\n").data

/-- A kernel in which nothing exists and every call fails with `ENOENT` (2). -/
def enoent_kernel : Kernel Unit where
  path_exists := fun _ _ => false
  syscall := fun _ w => (Outcome.err 2, w)
  dir_entries := fun _ _ => []
  freed := fun _ => reads_empty

/-- A configuration file with a second `[Global]` header right after the first. -/
def double_global_text : List Char := "[Global]\n[Global]\n[A]\n[B]\n".data

/-- A configuration file whose last line, a tier header, is not terminated by a newline. -/
def unterminated_text : List Char := "[Global]\n[A]\n[B]".data

/-- The file `unterminated_text` with a comment-only line appended. -/
def unterminated_text_with_comment : List Char := "[Global]\n[A]\n[B]\n# end".data

/-- The tier identifiers a run of the constructor ends with. -/
def tier_ids (r : Except Abort Loaded) : Except Abort (List String) :=
  match r with
  | Except.ok l => Except.ok (l.tiers.map (fun t => t.id))
  | Except.error e => Except.error e

/-! ## Theorems: strip_whitespace -/

theorem take_indexOf_eq_takeWhile (c : Char) (s : List Char) :
    s.take (s.indexOf c) = s.takeWhile (fun x => x != c) := by
  induction s with
  | nil => simp
  | cons a t ih =>
    by_cases h : a = c
    · subst h; simp [List.takeWhile]
    · have h' : (a != c) = true := by simpa using h
      rw [List.indexOf_cons_ne _ h, List.take_succ_cons, ih, List.takeWhile_cons, h']
      simp

theorem stripBackLoop_spec (s : List Char) : ∀ n, n < s.length →
    ∃ k, stripBackLoop s n = some k ∧ k ≤ n ∧
      (s.take (k + 1)).dropWhile isBlank
        = ((s.take (n + 1)).rdropWhile isBlank).dropWhile isBlank := by
  intro n
  induction n with
  | zero =>
    intro h
    refine ⟨0, rfl, le_refl _, ?_⟩
    cases s with
    | nil => simp at h
    | cons a t =>
      simp only [zero_add, List.take_succ_cons, List.take_zero, List.rdropWhile_singleton]
      by_cases hb : isBlank a = true <;> simp [hb, List.dropWhile]
  | succ n ih =>
    intro h
    have hlt : n + 1 < s.length := h
    have hget : s[n + 1]? = some s[n + 1] := List.getElem?_eq_getElem hlt
    have htake : s.take (n + 1 + 1) = s.take (n + 1) ++ [s[n + 1]] := by
      rw [List.take_succ, hget]; rfl
    by_cases hb : isBlank s[n + 1] = true
    · obtain ⟨k, hk, hle, heq⟩ := ih (Nat.lt_of_succ_lt h)
      refine ⟨k, ?_, Nat.le_succ_of_le hle, ?_⟩
      · simp [stripBackLoop, str_at, hget, hb, hk]
      · rw [heq, htake, List.rdropWhile_concat_pos _ _ _ hb]
    · refine ⟨n + 1, ?_, le_refl _, ?_⟩
      · simp [stripBackLoop, str_at, hget, hb]
      · rw [htake, List.rdropWhile_concat_neg _ _ _ hb]

theorem stripFrontLoop_spec (s : List Char) : ∀ fuel i, i ≤ s.length → s.length - i ≤ fuel →
    ∃ j, stripFrontLoop s fuel i = some j ∧ j ≤ s.length ∧
      s.drop j = (s.drop i).dropWhile isBlank := by
  intro fuel
  induction fuel with
  | zero =>
    intro i hi hf
    have : i = s.length := by omega
    subst this
    refine ⟨s.length, ?_, le_refl _, ?_⟩
    · simp [stripFrontLoop, stripFrontCond]
    · simp
  | succ fuel ih =>
    intro i hi hf
    by_cases hlt : i < s.length
    · have hget : s[i]? = some s[i] := List.getElem?_eq_getElem hlt
      have hdrop : s.drop i = s[i] :: s.drop (i + 1) := by
        simp
      by_cases hb : isBlank s[i] = true
      · obtain ⟨j, hj, hjl, heq⟩ := ih (i + 1) hlt (by omega)
        refine ⟨j, ?_, hjl, ?_⟩
        · simp [stripFrontLoop, stripFrontCond, hlt, str_at, hget, hb, hj]
        · rw [heq, hdrop, List.dropWhile_cons, if_pos hb]
      · refine ⟨i, ?_, hi, ?_⟩
        · simp [stripFrontLoop, stripFrontCond, hlt, str_at, hget, hb]
        · rw [hdrop, List.dropWhile_cons, if_neg hb]
    · have : i = s.length := by omega
      subst this
      refine ⟨s.length, ?_, le_refl _, ?_⟩
      · simp [stripFrontLoop, stripFrontCond]
      · simp



theorem strip_whitespace_eq_spec (s : List Char) : strip_whitespace s = some (strip_spec s) := by
  have hfind : (match str_find s '#' with | none => s.length | some i => i) = s.indexOf '#' := by
    unfold str_find
    split_ifs with h
    · rfl
    · have := List.indexOf_le_length (a := '#') (l := s)
      simp only; omega
  unfold strip_whitespace
  simp only [hfind]
  by_cases h0 : s.indexOf '#' = 0
  · -- empty string, or a string that begins with '#'
    cases s with
    | nil => rfl
    | cons a t =>
      have ha : a = '#' := by
        by_contra hne
        rw [List.indexOf_cons_ne _ hne] at h0
        exact Nat.succ_ne_zero _ h0
      subst ha
      simp [h0, stripBackLoop, substr, stripFrontLoop, stripFrontCond, str_at, isBlank,
        strip_spec]
  · have hle := List.indexOf_le_length (a := '#') (l := s)
    have hlt : s.indexOf '#' - 1 < s.length := by omega
    obtain ⟨k, hk, hkn, heq⟩ := stripBackLoop_spec s _ hlt
    have hn : s.indexOf '#' - 1 + 1 = s.indexOf '#' := by omega
    rw [hn, take_indexOf_eq_takeWhile] at heq
    obtain ⟨j, hj, hjl, hdrop⟩ := stripFrontLoop_spec (s.take (k + 1)) (s.take (k + 1)).length 0
      (Nat.zero_le _) (by simp)
    have hhead : s.head? ≠ some '#' := by
      cases s with
      | nil => simp
      | cons a t =>
        intro hh
        simp only [List.head?_cons, Option.some.injEq] at hh
        subst hh
        simp at h0
    simp only [if_pos h0, ne_eq, h0, not_false_eq_true, ↓reduceIte, hk, substr, Nat.zero_le,
      List.drop_zero, hj, hjl]
    simp only [strip_spec, if_neg hhead]
    rw [List.drop_zero] at hdrop
    rw [← heq, ← hdrop, ← List.length_drop, List.take_length]

theorem trimmed_head_not_blank (p : List Char) (c : Char)
    (h : ((p.rdropWhile isBlank).dropWhile isBlank).head? = some c) : isBlank c = false := by
  have := List.head?_dropWhile_not isBlank (p.rdropWhile isBlank)
  rw [h] at this
  exact this

theorem trimmed_getLast_not_blank (p : List Char) (c : Char)
    (h : ((p.rdropWhile isBlank).dropWhile isBlank).getLast? = some c) : isBlank c = false := by
  set q := p.rdropWhile isBlank with hq
  have hsuf : q.dropWhile isBlank <:+ q := List.dropWhile_suffix _
  have hne : q.dropWhile isBlank ≠ [] := by
    intro h0; rw [h0] at h; simp at h
  obtain ⟨t, ht⟩ := hsuf
  have hqne : q ≠ [] := by
    intro h0; rw [h0] at hne; simp at hne
  have hlast : q.getLast? = some c := by
    rw [← ht, List.getLast?_append_of_ne_nil _ hne, h]
  have hnb := List.rdropWhile_last_not isBlank p hqne
  rw [List.getLast?_eq_getLast _ hqne] at hlast
  simp only [Option.some.injEq] at hlast
  rw [← hlast]
  simpa using hnb

theorem strip_spec_fixed (s : List Char) : strip_spec (strip_spec s) = strip_spec s := by
  by_cases hs : s.head? = some '#'
  · simp [strip_spec, hs]
  · set r := strip_spec s with hr
    have hrdef : r = ((s.takeWhile (fun c => c != '#')).rdropWhile isBlank).dropWhile isBlank := by
      simp [hr, strip_spec, hs]
    have hmem : ∀ c ∈ r, c ≠ '#' := by
      intro c hc
      rw [hrdef] at hc
      have h1 := (List.dropWhile_suffix isBlank).subset hc
      have h2 := (List.rdropWhile_prefix isBlank _).subset h1
      simpa using (List.mem_takeWhile_imp h2)
    have hhead : r.head? ≠ some '#' := by
      intro hh
      exact hmem '#' (List.mem_of_mem_head? hh) rfl
    have htw : r.takeWhile (fun c => c != '#') = r := by
      rw [List.takeWhile_eq_self_iff]
      intro c hc
      simpa using hmem c hc
    have hrd : r.rdropWhile isBlank = r := by
      rw [List.rdropWhile_eq_self_iff]
      intro hne
      have := trimmed_getLast_not_blank (s.takeWhile (fun c => c != '#')) (r.getLast hne)
        (by rw [← hrdef]; exact List.getLast?_eq_getLast _ hne)
      simp [this]
    have hd : r.dropWhile isBlank = r := by
      rw [List.dropWhile_eq_self_iff]
      intro hlen
      have hne : r ≠ [] := List.ne_nil_of_length_pos hlen
      have hh : r.head? = some r[0] := by
        rw [List.head?_eq_getElem?]; exact List.getElem?_eq_getElem hlen
      have := trimmed_head_not_blank (s.takeWhile (fun c => c != '#')) r[0]
        (by rw [← hrdef]; exact hh)
      simp [this]
    show strip_spec r = r
    unfold strip_spec
    rw [if_neg hhead, htw, hrd, hd]

/-- C10: for every string `s`, `strip_whitespace` returns (no exception escapes, the loops
finish) and leaves `"#"` when `s` begins with `#`, otherwise the part of `s` before its first
`#` with trailing and leading spaces and tabs removed (`strip_spec`); the result neither
begins nor ends with a space or a tab, and stripping it again changes nothing. -/
theorem strip_whitespace_correct (s : List Char) :
    strip_whitespace s = some (strip_spec s) ∧
    (strip_spec s).head? ≠ some ' ' ∧ (strip_spec s).head? ≠ some '\t' ∧
    (strip_spec s).getLast? ≠ some ' ' ∧ (strip_spec s).getLast? ≠ some '\t' ∧
    (strip_whitespace s).bind strip_whitespace = strip_whitespace s := by
  have hends : ∀ c, isBlank c = true →
      (strip_spec s).head? ≠ some c ∧ (strip_spec s).getLast? ≠ some c := by
    intro c hc
    by_cases hs : s.head? = some '#'
    · have hc' : c ≠ '#' := by
        intro h; subst h; simp [isBlank] at hc
      simp only [strip_spec, if_pos hs, List.head?_cons, List.getLast?_singleton, ne_eq,
        Option.some.injEq]
      exact ⟨fun h => hc' h.symm, fun h => hc' h.symm⟩
    · simp only [strip_spec, if_neg hs]
      constructor
      · intro h
        have := trimmed_head_not_blank _ _ h
        rw [hc] at this; exact Bool.noConfusion this
      · intro h
        have := trimmed_getLast_not_blank _ _ h
        rw [hc] at this; exact Bool.noConfusion this
  refine ⟨strip_whitespace_eq_spec s, (hends ' ' (by decide)).1, (hends '\t' (by decide)).1,
    (hends ' ' (by decide)).2, (hends '\t' (by decide)).2, ?_⟩
  rw [strip_whitespace_eq_spec s, Option.some_bind, strip_whitespace_eq_spec, strip_spec_fixed]

/-! ## Theorems: the resolver -/

theorem find_backend_loop_first (path_exists : String → Bool) (path : String)
    (before after : List Tier) (t : Tier)
    (hbefore : ∀ u ∈ before, path_exists (fs_path_append u.dir path) = false)
    (ht : path_exists (fs_path_append t.dir path) = true) :
    find_backend_loop path_exists path (before ++ t :: after)
      = CStr.dangling (fs_path_append t.dir path) := by
  induction before with
  | nil => simp [find_backend_loop, ht]
  | cons u rest ih =>
    have hu := hbefore u (List.mem_cons_self _ _)
    have hrest : ∀ v ∈ rest, path_exists (fs_path_append v.dir path) = false :=
      fun v hv => hbefore v (List.mem_cons_of_mem _ hv)
    simp [find_backend_loop, hu, ih hrest]

theorem find_backend_loop_none (path_exists : String → Bool) (path : String)
    (tiers : List Tier)
    (hnone : ∀ u ∈ tiers, path_exists (fs_path_append u.dir path) = false) :
    find_backend_loop path_exists path tiers = CStr.literal "" := by
  induction tiers with
  | nil => rfl
  | cons u rest ih =>
    have hu := hnone u (List.mem_cons_self _ _)
    have hrest : ∀ v ∈ rest, path_exists (fs_path_append v.dir path) = false :=
      fun v hv => hnone v (List.mem_cons_of_mem _ hv)
    simp [find_backend_loop, hu, ih hrest]

theorem resolve_unresolved {σ : Type} (k : Kernel σ) (tiers_ptr : Option (List Tier))
    (path : String) (s : TState σ)
    (hnone : ∀ tiers, tiers_ptr = some tiers →
      ∀ u ∈ tiers, k.path_exists s.world (fs_path_append u.dir path) = false) :
    resolve k tiers_ptr s path = "" := by
  cases tiers_ptr with
  | none => rfl
  | some tiers =>
    simp only [resolve, find_backend_path, find_backend_loop_none _ _ tiers (hnone tiers rfl),
      read_cstr]

/-- C1, the code at the failing input: with `/f` present on both tiers, `find_backend_path`
picks tier 0 but what it returns is a pointer into the destroyed temporary that held
`/ssd/f`, not that string. In a run where the freed storage reads as empty, `at_getattr`
hands `lstat` the empty path and returns `-ENOENT`, although `lstat("/ssd/f")` succeeds. -/
theorem find_backend_path_returns_dangling_pointer :
    find_backend_path (fun p => p = "/ssd/f" || p = "/hdd/f") (some two_tiers) "/f"
      = CStr.dangling "/ssd/f" ∧
    find_backend_path (fun p => p = "/ssd/f" || p = "/hdd/f") (some two_tiers) "/f"
      ≠ CStr.literal "/ssd/f" ∧
    (both_tiers_kernel_with reads_empty).syscall (Call.lstat "/ssd/f") ()
      = (Outcome.ok 0, ()) ∧
    (at_getattr (both_tiers_kernel_with reads_empty) (some two_tiers) "/f" start).2.trace
      = [Call.lstat ""] ∧
    (at_getattr (both_tiers_kernel_with reads_empty) (some two_tiers) "/f" start).1 = -2 := by
  decide

/-! ## Theorems: readdir -/

/-- C3, as stated, fails: on two empty tiers, creating `/new` hands `mkdir`, `open` and
`mknod_wrapper` the empty path, not `/ssd/new`, and each callback returns `-ENOENT`,
although the same call on `/ssd/new` would have succeeded. -/
theorem create_callbacks_get_empty_path :
    fs_path_append "/ssd" "/new" = "/ssd/new" ∧
    (at_mkdir empty_tiers_kernel (some two_tiers) "/new" 493 start).2.trace
      = [Call.mkdir "" 493] ∧
    (at_mkdir empty_tiers_kernel (some two_tiers) "/new" 493 start).1 = -2 ∧
    (at_create empty_tiers_kernel (some two_tiers) "/new" 420 { flags := 577, fh := 0 }
        start).2.2.trace = [Call.open_ "" 577 (some 420)] ∧
    (at_create empty_tiers_kernel (some two_tiers) "/new" 420 { flags := 577, fh := 0 }
        start).1 = -2 ∧
    (at_mknod empty_tiers_kernel (some two_tiers) "/new" 33188 0 start).2.trace
      = [Call.mknod_wrapper "" 33188 0] ∧
    (at_mknod empty_tiers_kernel (some two_tiers) "/new" 33188 0 start).1 = -2 ∧
    (empty_tiers_kernel.syscall (Call.mkdir "/ssd/new" 493) ()).1 = Outcome.ok 0 := by
  decide

/-- C3, amended: for every logical path that exists on no tier (or when no tier list is
set), `at_create`, `at_mkdir` and `at_mknod` issue exactly one call, and hand it the empty
path that the resolver returns for a path it does not find; no path under tier 0 is built. -/
theorem create_callbacks_unresolved {σ : Type} (k : Kernel σ) (tiers_ptr : Option (List Tier))
    (path : String) (mode rdev : Int) (fi : fuse_file_info) (s : TState σ)
    (hnone : ∀ tiers, tiers_ptr = some tiers →
      ∀ u ∈ tiers, k.path_exists s.world (fs_path_append u.dir path) = false) :
    (at_create k tiers_ptr path mode fi s).2.2.trace
      = s.trace ++ [Call.open_ "" fi.flags (some mode)] ∧
    (at_mkdir k tiers_ptr path mode s).2.trace = s.trace ++ [Call.mkdir "" mode] ∧
    (at_mknod k tiers_ptr path mode rdev s).2.trace
      = s.trace ++ [Call.mknod_wrapper "" mode rdev] := by
  have hres : resolve k tiers_ptr s path = "" := resolve_unresolved k tiers_ptr path s hnone
  have htrace : ∀ c : Call, (sys k c s).2.trace = s.trace ++ [c] := by
    intro c
    unfold sys
    split <;> rfl
  refine ⟨?_, ?_, ?_⟩
  · simp only [at_create, hres]
    split_ifs <;> exact htrace _
  · simp only [at_mkdir, ret_zero, hres]
    split_ifs <;> exact htrace _
  · simp only [at_mknod, ret_zero, hres]
    split_ifs <;> exact htrace _

/-- On two empty tiers the three callbacks pass the empty path. -/
theorem create_callbacks_unresolved_witness :
    (at_create empty_tiers_kernel (some two_tiers) "/new" 420 { flags := 577, fh := 0 }
        start).2.2.trace = start.trace ++ [Call.open_ "" 577 (some 420)] ∧
    (at_mkdir empty_tiers_kernel (some two_tiers) "/new" 420 start).2.trace
      = start.trace ++ [Call.mkdir "" 420] ∧
    (at_mknod empty_tiers_kernel (some two_tiers) "/new" 420 0 start).2.trace
      = start.trace ++ [Call.mknod_wrapper "" 420 0] :=
  create_callbacks_unresolved empty_tiers_kernel (some two_tiers) "/new" 420 0
    { flags := 577, fh := 0 } start
    (by
      intro tiers h u hu
      cases h
      revert u
      decide)

/-! ## Theorems: Config::verify -/

/-- The two per-tier tests of `verify`, as one Boolean. -/
theorem verify_tier_errors (is_directory : String → Bool) (v : VerifyState) (t : Tier) :
    (verify_tier is_directory v t).errors
      = (v.errors || !is_directory t.dir || decide (t.watermark > 100 ∨ t.watermark < 0)) := by
  unfold verify_tier
  by_cases hd : is_directory t.dir = true <;>
    by_cases hw : (t.watermark > 100 ∨ t.watermark < 0) <;>
    simp [hd, hw, VerifyState.report]

theorem verify_fold_errors (is_directory : String → Bool) (tiers : List Tier) (v : VerifyState) :
    (tiers.foldl (verify_tier is_directory) v).errors
      = (v.errors || tiers.any (fun t =>
          !is_directory t.dir || decide (t.watermark > 100 ∨ t.watermark < 0))) := by
  induction tiers generalizing v with
  | nil => simp
  | cons t rest ih =>
    rw [List.foldl_cons, ih, verify_tier_errors, List.any_cons]
    simp only [Bool.or_assoc]

theorem verify_errors_eq (cfg : Config) (is_directory : String → Bool) (config_path : String)
    (tiers : List Tier) :
    (Config.verify cfg is_directory config_path tiers).errors
      = (decide (tiers.length < 2) ||
          tiers.any (fun t =>
            !is_directory t.dir || decide (t.watermark > 100 ∨ t.watermark < 0)) ||
          decide (cfg.log_level_ = -1) || decide (cfg.tier_period_s_ = -1)) := by
  unfold Config.verify
  cases tiers with
  | nil =>
    simp [VerifyState.report]
    split_ifs <;> simp
  | cons a rest =>
    cases rest with
    | nil =>
      simp [VerifyState.report]
      split_ifs <;> simp
    | cons b rest2 =>
      have hlen : ¬ ((a :: b :: rest2).length < 2) := by simp
      have h1 : ¬ ((a :: b :: rest2).length = 1) := by simp
      have hfold := verify_fold_errors is_directory (a :: b :: rest2)
        { errors := false, log := [] }
      simp only [List.isEmpty_cons, Bool.false_eq_true, if_false, h1, hlen, decide_False,
        Bool.false_or] at hfold ⊢
      by_cases hl : cfg.log_level_ = -1 <;> by_cases hp : cfg.tier_period_s_ = -1
      all_goals
        simp only [hl, hp, if_true, if_false, VerifyState.report, decide_True, decide_False,
          Bool.or_true, Bool.or_false]
        try (split_ifs with he <;> simp_all)

theorem final_report_last (v : VerifyState) (m : ErrorCall)
    (h : (if v.errors then { v with log := v.log ++ [m] } else v).errors = true) :
    (if v.errors then { v with log := v.log ++ [m] } else v).log.getLast? = some m := by
  by_cases he : v.errors = true
  · simp [he]
  · simp [he] at h

theorem verify_last_report (cfg : Config) (is_directory : String → Bool) (config_path : String)
    (tiers : List Tier)
    (h : (Config.verify cfg is_directory config_path tiers).errors = true) :
    (Config.verify cfg is_directory config_path tiers).log.getLast?
      = some { msg := "Please fix these mistakes in " ++ config_path, exit_arg := none } :=
  final_report_last _ _ h

/-- C4: `Config::verify` sets `errors` (and then makes its final report, the call to
`Logging::log.error` without `false`) whenever the tier list has fewer than two tiers, or
some tier has a watermark below 0 or above 100, or some tier's path is not a directory (a
missing path is not one). -/
theorem verify_reports_configuration_errors (cfg : Config) (is_directory : String → Bool)
    (config_path : String) (tiers : List Tier)
    (hbad : tiers.length < 2 ∨
      ∃ t ∈ tiers, t.watermark < 0 ∨ 100 < t.watermark ∨ is_directory t.dir = false) :
    (Config.verify cfg is_directory config_path tiers).errors = true ∧
    (Config.verify cfg is_directory config_path tiers).log.getLast?
      = some { msg := "Please fix these mistakes in " ++ config_path, exit_arg := none } := by
  have herr : (Config.verify cfg is_directory config_path tiers).errors = true := by
    rw [verify_errors_eq]
    rcases hbad with hlen | ⟨t, ht, hw⟩
    · simp [hlen]
    · have hany : tiers.any (fun t =>
          !is_directory t.dir || decide (t.watermark > 100 ∨ t.watermark < 0)) = true := by
        rw [List.any_eq_true]
        refine ⟨t, ht, ?_⟩
        rcases hw with h | h | h
        · simp [h]
        · simp [h]
        · simp [h]
      rw [hany]; simp
  exact ⟨herr, verify_last_report cfg is_directory config_path tiers herr⟩

/-- Three tiers, the second with watermark 101: rejected. -/
theorem verify_reports_configuration_errors_witness :
    (Config.verify { log_level_ := 1, tier_period_s_ := 1000 } (fun _ => true) "/etc/autotier.conf"
        [fast_tier, { id := "mid", dir := "/sas", watermark := 101 }, slow_tier]).errors = true ∧
    (Config.verify { log_level_ := 1, tier_period_s_ := 1000 } (fun _ => true) "/etc/autotier.conf"
        [fast_tier, { id := "mid", dir := "/sas", watermark := 101 }, slow_tier]).log.getLast?
      = some { msg := "Please fix these mistakes in " ++ "/etc/autotier.conf", exit_arg := none } :=
  verify_reports_configuration_errors { log_level_ := 1, tier_period_s_ := 1000 } (fun _ => true)
    "/etc/autotier.conf" [fast_tier, { id := "mid", dir := "/sas", watermark := 101 }, slow_tier]
    (Or.inr ⟨{ id := "mid", dir := "/sas", watermark := 101 }, by simp, by decide⟩)

/-- C5, as stated, fails: a configuration file with two valid tiers whose Global section
says `Tier Period = 0` (or `-5`) is read with that tier period and `verify` reports no
error. -/
theorem tier_period_below_one_accepted :
    Config.Config { log_level_ := 1, tier_period_s_ := 1000 } 0
        (fun p => p = "/ssd" || p = "/hdd") none "/etc/autotier.conf" period_zero_text []
      = Except.ok { tiers := two_tiers, cfg := { log_level_ := 1, tier_period_s_ := 0 },
                    verdict := { errors := false, log := [] } } ∧
    Config.Config { log_level_ := 1, tier_period_s_ := 1000 } 0
        (fun p => p = "/ssd" || p = "/hdd") none "/etc/autotier.conf" period_negative_text []
      = Except.ok { tiers := two_tiers, cfg := { log_level_ := 1, tier_period_s_ := -5 },
                    verdict := { errors := false, log := [] } } := by
  decide!

/-- C5, amended: on a configuration that is otherwise valid (two or more tiers, each with a
directory path and a watermark within 0..100, and a log level other than -1), `verify`
reports an error exactly when the tier period is -1, the value stored for a `Tier Period`
that `stoi` cannot convert; every other tier period, 0 and negative ones included, is
accepted. -/
theorem verify_tier_period_only_minus_one (cfg : Config) (is_directory : String → Bool)
    (config_path : String) (tiers : List Tier)
    (hlen : 2 ≤ tiers.length)
    (htiers : ∀ t ∈ tiers, is_directory t.dir = true ∧ 0 ≤ t.watermark ∧ t.watermark ≤ 100)
    (hlog : cfg.log_level_ ≠ -1) :
    (Config.verify cfg is_directory config_path tiers).errors = true
      ↔ cfg.tier_period_s_ = -1 := by
  have hany : tiers.any (fun t =>
      !is_directory t.dir || decide (t.watermark > 100 ∨ t.watermark < 0)) = false := by
    rw [List.any_eq_false]
    intro t ht
    obtain ⟨hd, h0, h100⟩ := htiers t ht
    simp only [hd, Bool.not_true, Bool.false_or, decide_eq_true_eq]
    omega
  have hl : ¬ tiers.length < 2 := by omega
  rw [verify_errors_eq, hany]
  simp [hl, hlog]

/-- Two valid tiers and tier period 0: the verdict hinges on `0 = -1`. -/
theorem verify_tier_period_only_minus_one_witness :
    (Config.verify { log_level_ := 1, tier_period_s_ := 0 } (fun _ => true)
        "/etc/autotier.conf" two_tiers).errors = true
      ↔ (0 : Int) = -1 :=
  verify_tier_period_only_minus_one { log_level_ := 1, tier_period_s_ := 0 } (fun _ => true)
    "/etc/autotier.conf" two_tiers (by decide) (by decide) (by decide)

/-! ## Theorems: the reading loop -/

/-- C6, the code at the failing inputs: a `[Global]` header that ends a Global section is
given a tier of its own, and a tier header on a last line without newline is read twice. -/
theorem global_header_and_last_header_make_extra_tiers :
    tier_ids (Config.Config { log_level_ := 1, tier_period_s_ := 1000 } 0 (fun _ => true) none
        "/etc/autotier.conf" double_global_text []) = Except.ok ["Global", "A", "B"] ∧
    tier_ids (Config.Config { log_level_ := 1, tier_period_s_ := 1000 } 0 (fun _ => true) none
        "/etc/autotier.conf" unterminated_text []) = Except.ok ["A", "B", "B"] := by
  decide!

/-- C7, the code at the failing input: appending a comment-only line to a file whose last
line is an unterminated tier header changes the tier list that is read. -/
theorem appended_comment_line_changes_tiers :
    tier_ids (Config.Config { log_level_ := 1, tier_period_s_ := 1000 } 0 (fun _ => true) none
        "/etc/autotier.conf" unterminated_text []) = Except.ok ["A", "B", "B"] ∧
    tier_ids (Config.Config { log_level_ := 1, tier_period_s_ := 1000 } 0 (fun _ => true) none
        "/etc/autotier.conf" unterminated_text_with_comment []) = Except.ok ["A", "B"] := by
  decide!

/-! ## Theorems: error codes of the callbacks -/

theorem sys_of_fails {σ : Type} (k : Kernel σ) (c : Call) (s : TState σ) (e : Int)
    (h : fails k c s e) : (sys k c s).1 = -1 ∧ (sys k c s).2.errno = e := by
  obtain ⟨w, hw⟩ := h
  simp [sys, hw]

theorem sys_of_succeeds {σ : Type} (k : Kernel σ) (c : Call) (s : TState σ)
    (h : succeeds k c s) : (sys k c s).2.errno = s.errno := by
  obtain ⟨ret, w, hw⟩ := h
  simp [sys, hw]

theorem sys_direct_of_fails {σ : Type} (k : Kernel σ) (c : Call) (s : TState σ) (e : Int)
    (h : fails k c s e) : (sys_direct k c s).1 = e := by
  obtain ⟨w, hw⟩ := h
  simp [sys_direct, hw]

theorem sys_trace {σ : Type} (k : Kernel σ) (c : Call) (s : TState σ) :
    (sys k c s).2.trace = s.trace ++ [c] := by
  unfold sys
  split <;> rfl

theorem ret_zero_of_fails {σ : Type} (k : Kernel σ) (c : Call) (s : TState σ) (e : Int)
    (h : fails k c s e) : (ret_zero (sys k c s)).1 = - e := by
  obtain ⟨h1, h2⟩ := sys_of_fails k c s e h
  simp [ret_zero, h1, h2]

theorem ret_res_of_fails {σ : Type} (k : Kernel σ) (c : Call) (s : TState σ) (e : Int)
    (h : fails k c s e) : (ret_res (sys k c s)).1 = - e := by
  obtain ⟨h1, h2⟩ := sys_of_fails k c s e h
  simp [ret_res, h1, h2]

theorem res_or_errno_of_fails {σ : Type} (k : Kernel σ) (c : Call) (s : TState σ) (e : Int)
    (h : fails k c s e) : res_or_errno (sys k c s) = - e := by
  obtain ⟨h1, h2⟩ := sys_of_fails k c s e h
  simp [res_or_errno, h1, h2]

theorem fd_of_none_fails {σ : Type} (k : Kernel σ) (tiers_ptr : Option (List Tier))
    (path : String) (flags : Int) (s : TState σ) (e : Int)
    (h : fails k (Call.open_ (resolve k tiers_ptr s path) flags none) s e) :
    (fd_of k tiers_ptr path flags none s).1 = -1 ∧
    (fd_of k tiers_ptr path flags none s).2.errno = e :=
  sys_of_fails k _ s e h

/-- C8, as stated, fails: when `close` fails with `EIO`, `at_release` still returns 0; and
when `at_copy_file_range` cannot open its output (`EACCES`, 13) and the `close(fd_in)` that
follows fails with `EIO`, it returns `-EIO`, not `-EACCES`. -/
theorem at_release_swallows_close_error :
    fails failing_close_kernel (Call.close 3) start 5 ∧
    (at_release failing_close_kernel { flags := 0, fh := 3 } start).1 = 0 ∧
    fails failing_close_kernel (Call.open_ "" O_WRONLY none) start 13 ∧
    (at_copy_file_range failing_close_kernel none "/in" (some { flags := 0, fh := 3 }) 0
        "/out" none 0 16 0 start).1 = -5 :=
  ⟨⟨(), rfl⟩, rfl, ⟨(), rfl⟩, by decide⟩

/-- C8, amended: whenever the call a callback delegates to fails with error number `e`, the
callback returns `-e`, unchanged, in these cases: the one call of the path callbacks
(`at_rename` when `flags` is 0, `at_truncate` with or without a handle); the `open` that
`at_read`, `at_write`, `at_lseek`, `at_fallocate` (mode 0) and `at_copy_file_range` (input
file) make when they get no handle; the I/O call of those five once the descriptors in use
are not -1; and the `open` of the output file of `at_copy_file_range` provided the
`close(fd_in)` that follows it succeeds. Not included: `at_release` (returns 0 whatever
`close` does), `at_fsync` (issues no call), the unchecked `close` calls that end a
descriptor callback, and the output `open` of `at_copy_file_range` when the `close(fd_in)`
after it fails as well. -/
theorem callbacks_return_negated_errno {σ β : Type} (k : Kernel σ)
    (filler : β → FillArg → β × Int) (fbuf : β)
    (tiers_ptr : Option (List Tier)) (s : TState σ) (path to_ name : String)
    (mask mode rdev uid gid size atime mtime flags offset length whence : Int)
    (n : Nat) (buf : List Nat) (fi : fuse_file_info) (fio fio2 : Option fuse_file_info)
    (e : Int) :
    (fails k (Call.lstat (resolve k tiers_ptr s path)) s e →
      (at_getattr k tiers_ptr path s).1 = - e) ∧
    (fails k (Call.access (resolve k tiers_ptr s path) mask) s e →
      (at_access k tiers_ptr path mask s).1 = - e) ∧
    (fails k (Call.readlink (resolve k tiers_ptr s path) ((n + (2 ^ 64 - 1)) % 2 ^ 64)) s e →
      (at_readlink k tiers_ptr path n s).1 = - e) ∧
    (fails k (Call.opendir (resolve k tiers_ptr s path)) s e →
      (at_readdir k tiers_ptr path filler fbuf s).1 = - e) ∧
    (fails k (Call.mknod_wrapper (resolve k tiers_ptr s path) mode rdev) s e →
      (at_mknod k tiers_ptr path mode rdev s).1 = - e) ∧
    (fails k (Call.mkdir (resolve k tiers_ptr s path) mode) s e →
      (at_mkdir k tiers_ptr path mode s).1 = - e) ∧
    (fails k (Call.unlink (resolve k tiers_ptr s path)) s e →
      (at_unlink k tiers_ptr path s).1 = - e) ∧
    (fails k (Call.rmdir (resolve k tiers_ptr s path)) s e →
      (at_rmdir k tiers_ptr path s).1 = - e) ∧
    (fails k (Call.symlink (resolve k tiers_ptr s path) (resolve k tiers_ptr s to_)) s e →
      (at_symlink k tiers_ptr path to_ s).1 = - e) ∧
    (fails k (Call.rename (resolve k tiers_ptr s path) (resolve k tiers_ptr s to_)) s e →
      (at_rename k tiers_ptr path to_ 0 s).1 = - e) ∧
    (fails k (Call.link (resolve k tiers_ptr s path) (resolve k tiers_ptr s to_)) s e →
      (at_link k tiers_ptr path to_ s).1 = - e) ∧
    (fails k (Call.chmod (resolve k tiers_ptr s path) mode) s e →
      (at_chmod k tiers_ptr path mode s).1 = - e) ∧
    (fails k (Call.lchown (resolve k tiers_ptr s path) uid gid) s e →
      (at_chown k tiers_ptr path uid gid s).1 = - e) ∧
    (fails k (Call.ftruncate fi.fh size) s e →
      (at_truncate k tiers_ptr path size (some fi) s).1 = - e) ∧
    (fails k (Call.truncate (resolve k tiers_ptr s path) size) s e →
      (at_truncate k tiers_ptr path size none s).1 = - e) ∧
    (fails k (Call.utimensat (resolve k tiers_ptr s path) atime mtime) s e →
      (at_utimens k tiers_ptr path atime mtime s).1 = - e) ∧
    (fails k (Call.open_ (resolve k tiers_ptr s path) fi.flags (some mode)) s e →
      (at_create k tiers_ptr path mode fi s).1 = - e) ∧
    (fails k (Call.open_ (resolve k tiers_ptr s path) fi.flags none) s e →
      (at_open k tiers_ptr path fi s).1 = - e) ∧
    (fails k (Call.statvfs (resolve k tiers_ptr s path)) s e →
      (at_statfs k tiers_ptr path s).1 = - e) ∧
    (fails k (Call.lsetxattr (resolve k tiers_ptr s path) name buf n flags) s e →
      (at_setxattr k tiers_ptr path name buf n flags s).1 = - e) ∧
    (fails k (Call.lgetxattr (resolve k tiers_ptr s path) name n) s e →
      (at_getxattr k tiers_ptr path name n s).1 = - e) ∧
    (fails k (Call.llistxattr (resolve k tiers_ptr s path) n) s e →
      (at_listxattr k tiers_ptr path n s).1 = - e) ∧
    (fails k (Call.lremovexattr (resolve k tiers_ptr s path) name) s e →
      (at_removexattr k tiers_ptr path name s).1 = - e) ∧
    -- descriptor callbacks: the `open` made when there is no handle
    (fails k (Call.open_ (resolve k tiers_ptr s path) O_RDONLY none) s e →
      (at_read k tiers_ptr path n offset none s).1 = - e ∧
      (at_lseek k tiers_ptr path offset whence none s).1 = - e ∧
      (at_copy_file_range k tiers_ptr path none offset to_ fio2 length n flags s).1 = - e) ∧
    (fails k (Call.open_ (resolve k tiers_ptr s path) O_WRONLY none) s e →
      (at_write k tiers_ptr path buf n offset none s).1 = - e ∧
      (at_fallocate k tiers_ptr path 0 offset length none s).1 = - e) ∧
    -- descriptor callbacks: the I/O call on the descriptor in use
    ((fd_of k tiers_ptr path O_RDONLY fio s).1 ≠ -1 →
      fails k (Call.pread (fd_of k tiers_ptr path O_RDONLY fio s).1 n offset)
        (fd_of k tiers_ptr path O_RDONLY fio s).2 e →
      (at_read k tiers_ptr path n offset fio s).1 = - e) ∧
    ((fd_of k tiers_ptr path O_WRONLY fio s).1 ≠ -1 →
      fails k (Call.pwrite (fd_of k tiers_ptr path O_WRONLY fio s).1 buf n offset)
        (fd_of k tiers_ptr path O_WRONLY fio s).2 e →
      (at_write k tiers_ptr path buf n offset fio s).1 = - e) ∧
    ((fd_of k tiers_ptr path O_RDONLY fio s).1 ≠ -1 →
      fails k (Call.lseek (fd_of k tiers_ptr path O_RDONLY fio s).1 offset whence)
        (fd_of k tiers_ptr path O_RDONLY fio s).2 e →
      (at_lseek k tiers_ptr path offset whence fio s).1 = - e) ∧
    ((fd_of k tiers_ptr path O_WRONLY fio s).1 ≠ -1 →
      fails k (Call.posix_fallocate (fd_of k tiers_ptr path O_WRONLY fio s).1 offset length)
        (fd_of k tiers_ptr path O_WRONLY fio s).2 e →
      (at_fallocate k tiers_ptr path 0 offset length fio s).1 = - e) ∧
    -- at_copy_file_range: the output `open`, then the copy itself
    ((fd_of k tiers_ptr path O_RDONLY fio s).1 ≠ -1 →
      fails k (Call.open_ (resolve k tiers_ptr (fd_of k tiers_ptr path O_RDONLY fio s).2 to_)
          O_WRONLY none) (fd_of k tiers_ptr path O_RDONLY fio s).2 e →
      succeeds k (Call.close (fd_of k tiers_ptr path O_RDONLY fio s).1)
        (fd_of k tiers_ptr to_ O_WRONLY none (fd_of k tiers_ptr path O_RDONLY fio s).2).2 →
      (at_copy_file_range k tiers_ptr path fio offset to_ none length n flags s).1 = - e) ∧
    ((fd_of k tiers_ptr path O_RDONLY fio s).1 ≠ -1 →
      (fd_of k tiers_ptr to_ O_WRONLY fio2 (fd_of k tiers_ptr path O_RDONLY fio s).2).1 ≠ -1 →
      fails k (Call.copy_file_range (fd_of k tiers_ptr path O_RDONLY fio s).1 offset
          (fd_of k tiers_ptr to_ O_WRONLY fio2 (fd_of k tiers_ptr path O_RDONLY fio s).2).1
          length n flags)
        (fd_of k tiers_ptr to_ O_WRONLY fio2 (fd_of k tiers_ptr path O_RDONLY fio s).2).2 e →
      (at_copy_file_range k tiers_ptr path fio offset to_ fio2 length n flags s).1 = - e) := by
  refine ⟨?_, ?_, ?_, ?_, ?_, ?_, ?_, ?_, ?_, ?_, ?_, ?_, ?_, ?_, ?_, ?_, ?_, ?_, ?_, ?_, ?_,
    ?_, ?_, ?_, ?_, ?_, ?_, ?_, ?_, ?_, ?_⟩
  · exact ret_zero_of_fails k _ s e
  · exact ret_zero_of_fails k _ s e
  · exact ret_zero_of_fails k _ s e
  · rintro ⟨w, hw⟩
    simp [at_readdir, hw]
  · exact ret_zero_of_fails k _ s e
  · exact ret_zero_of_fails k _ s e
  · exact ret_zero_of_fails k _ s e
  · exact ret_zero_of_fails k _ s e
  · exact ret_zero_of_fails k _ s e
  · intro h
    simpa [at_rename] using ret_zero_of_fails k _ s e h
  · exact ret_zero_of_fails k _ s e
  · exact ret_zero_of_fails k _ s e
  · exact ret_zero_of_fails k _ s e
  · exact ret_zero_of_fails k _ s e
  · exact ret_zero_of_fails k _ s e
  · exact ret_zero_of_fails k _ s e
  · intro h
    obtain ⟨h1, h2⟩ := sys_of_fails k _ s e h
    simp [at_create, h1, h2]
  · intro h
    obtain ⟨h1, h2⟩ := sys_of_fails k _ s e h
    simp [at_open, h1, h2]
  · exact ret_zero_of_fails k _ s e
  · exact ret_zero_of_fails k _ s e
  · exact ret_res_of_fails k _ s e
  · exact ret_res_of_fails k _ s e
  · exact ret_zero_of_fails k _ s e
  · intro h
    obtain ⟨h1, h2⟩ := fd_of_none_fails k tiers_ptr path O_RDONLY s e h
    simp [at_read, at_lseek, at_copy_file_range, h1, h2]
  · intro h
    obtain ⟨h1, h2⟩ := fd_of_none_fails k tiers_ptr path O_WRONLY s e h
    simp [at_write, at_fallocate, h1, h2]
  · intro hfd h
    simp only [at_read, if_neg hfd]
    exact res_or_errno_of_fails k _ _ e h
  · intro hfd h
    simp only [at_write, if_neg hfd]
    exact res_or_errno_of_fails k _ _ e h
  · intro hfd h
    simp only [at_lseek, if_neg hfd]
    exact res_or_errno_of_fails k _ _ e h
  · intro hfd h
    have hd := sys_direct_of_fails k _ _ e h
    simp [at_fallocate, hfd, hd]
  · intro hfd h hclose
    obtain ⟨h1, h2⟩ := fd_of_none_fails k tiers_ptr to_ O_WRONLY _ e h
    have hc := sys_of_succeeds k _ _ hclose
    simp only [at_copy_file_range, if_neg hfd, h1, if_true, hc, h2]
  · intro hin hout h
    simp only [at_copy_file_range, if_neg hin, if_neg hout]
    exact res_or_errno_of_fails k _ _ e h

/-- With every call failing with `ENOENT`, each callback of the first group returns -2. -/
theorem callbacks_return_negated_errno_witness :
    (at_getattr enoent_kernel (some two_tiers) "/f" start).1 = - 2 ∧
    (at_rename enoent_kernel (some two_tiers) "/f" "/g" 0 start).1 = - 2 ∧
    (at_read enoent_kernel (some two_tiers) "/f" 16 0 (some { flags := 0, fh := 3 }) start).1
      = - 2 :=
  ⟨(callbacks_return_negated_errno enoent_kernel collect_names [] (some two_tiers) start "/f" "/g" "" 0 0 0 0 0
      0 0 0 0 0 0 0 16 [] { flags := 0, fh := 3 } (some { flags := 0, fh := 3 }) none 2).1
      ⟨(), rfl⟩,
   (callbacks_return_negated_errno enoent_kernel collect_names [] (some two_tiers) start "/f" "/g" "" 0 0 0 0 0
      0 0 0 0 0 0 0 16 [] { flags := 0, fh := 3 } (some { flags := 0, fh := 3 }) none
      2).2.2.2.2.2.2.2.2.2.1 ⟨(), rfl⟩,
   (callbacks_return_negated_errno enoent_kernel collect_names [] (some two_tiers) start "/f" "/g" "" 0 0 0 0 0
      0 0 0 0 0 0 0 16 [] { flags := 0, fh := 3 } (some { flags := 0, fh := 3 }) none
      2).2.2.2.2.2.2.2.2.2.2.2.2.2.2.2.2.2.2.2.2.2.2.2.2.2.1 (by decide) ⟨(), rfl⟩⟩

/-! ## Theorems: open file handles -/

/-- C9: with an open file handle (`fi` non-null, holding a descriptor), `at_read` issues
exactly one call, `pread` on the descriptor of the handle, and `at_write` exactly one
`pwrite` on it; no path is resolved or opened. For any two tier lists and any two states
of the tiers (`k₂`, `s₂` may say anything about which paths exist), if that one call ends the
same way, the two runs return the same result. -/
theorem read_write_use_the_handle {σ : Type} (k₁ k₂ : Kernel σ)
    (tiers₁ tiers₂ : Option (List Tier)) (path : String) (buf : List Nat) (size : Nat)
    (offset : Int) (fi : fuse_file_info) (s₁ s₂ : TState σ)
    (hfh : fi.fh ≠ -1) (herrno : s₁.errno = s₂.errno) :
    (at_read k₁ tiers₁ path size offset (some fi) s₁).2.trace
      = s₁.trace ++ [Call.pread fi.fh size offset] ∧
    (at_write k₁ tiers₁ path buf size offset (some fi) s₁).2.trace
      = s₁.trace ++ [Call.pwrite fi.fh buf size offset] ∧
    ((k₁.syscall (Call.pread fi.fh size offset) s₁.world).1
        = (k₂.syscall (Call.pread fi.fh size offset) s₂.world).1 →
      (at_read k₁ tiers₁ path size offset (some fi) s₁).1
        = (at_read k₂ tiers₂ path size offset (some fi) s₂).1) ∧
    ((k₁.syscall (Call.pwrite fi.fh buf size offset) s₁.world).1
        = (k₂.syscall (Call.pwrite fi.fh buf size offset) s₂.world).1 →
      (at_write k₁ tiers₁ path buf size offset (some fi) s₁).1
        = (at_write k₂ tiers₂ path buf size offset (some fi) s₂).1) := by
  have hres : ∀ (c : Call), (k₁.syscall c s₁.world).1 = (k₂.syscall c s₂.world).1 →
      res_or_errno (sys k₁ c s₁) = res_or_errno (sys k₂ c s₂) := by
    intro c h
    unfold res_or_errno sys
    rcases h1 : k₁.syscall c s₁.world with ⟨o1, w1⟩
    rcases h2 : k₂.syscall c s₂.world with ⟨o2, w2⟩
    rw [h1, h2] at h
    simp only at h
    subst h
    cases o1 <;> simp [herrno]
  refine ⟨?_, ?_, ?_, ?_⟩
  · simp only [at_read, fd_of, if_neg hfh, close_if_null]
    exact sys_trace k₁ _ s₁
  · simp only [at_write, fd_of, if_neg hfh, close_if_null]
    exact sys_trace k₁ _ s₁
  · intro h
    simp only [at_read, fd_of, if_neg hfh]
    exact hres _ h
  · intro h
    simp only [at_write, fd_of, if_neg hfh]
    exact hres _ h

/-- The same handle read and written with the file on tier 0 of one tier list and with
nothing on the tiers of another: same calls, same results. -/
theorem read_write_use_the_handle_witness :
    (at_read union_kernel (some two_tiers) "/d/a" 16 0 (some { flags := 0, fh := 3 })
        start).2.trace = start.trace ++ [Call.pread 3 16 0] ∧
    (at_write union_kernel (some two_tiers) "/d/a" [104, 105] 2 0 (some { flags := 1, fh := 3 })
        start).2.trace = start.trace ++ [Call.pwrite 3 [104, 105] 2 0] ∧
    (at_read union_kernel (some two_tiers) "/d/a" 16 0 (some { flags := 0, fh := 3 }) start).1
      = (at_read empty_tiers_kernel (some [slow_tier, fast_tier]) "/d/a" 16 0
          (some { flags := 0, fh := 3 }) start).1 :=
  ⟨(read_write_use_the_handle union_kernel empty_tiers_kernel (some two_tiers)
      (some [slow_tier, fast_tier]) "/d/a" [104, 105] 16 0 { flags := 0, fh := 3 } start start
      (by decide) rfl).1,
   (read_write_use_the_handle union_kernel empty_tiers_kernel (some two_tiers)
      (some [slow_tier, fast_tier]) "/d/a" [104, 105] 2 0 { flags := 1, fh := 3 } start start
      (by decide) rfl).2.1,
   (read_write_use_the_handle union_kernel empty_tiers_kernel (some two_tiers)
      (some [slow_tier, fast_tier]) "/d/a" [104, 105] 16 0 { flags := 0, fh := 3 } start start
      (by decide) rfl).2.2.1 rfl⟩


/-! ## Theorems: the reading loops never run out of iterations -/

theorem getline_budget (is : IStream) (str : List Char) (delim : Char)
    (h : is.failbit = false) :
    stream_budget (getline is str delim).1 < stream_budget is := by
  by_cases he : is.eofbit = true
  · simp [getline, stream_budget, he, h]
  · have he' : is.eofbit = false := by simpa using he
    have hlen := (List.dropWhile_suffix (l := is.rest) (fun c => c != delim)).length_le
    rcases hd : is.rest.dropWhile (fun c => c != delim) with _ | ⟨x, rest⟩
    · simp only [getline, stream_budget, he', h, hd, Bool.or_self, Bool.false_eq_true, if_false,
        if_true]
      split_ifs <;> omega
    · rw [hd] at hlen
      simp only [List.length_cons] at hlen
      simp only [getline, stream_budget, he', h, hd, Bool.or_self, Bool.false_eq_true, if_false]
      omega

theorem stoi_or_minus_one_cases (value : List Char) :
    (∃ v, stoi_or_minus_one value = Except.ok v) ∨
    stoi_or_minus_one value = Except.error Abort.uncaught_exception := by
  unfold stoi_or_minus_one
  cases stoi value with
  | value v => exact Or.inl ⟨v, rfl⟩
  | invalid_argument => exact Or.inl ⟨-1, rfl⟩
  | out_of_range => exact Or.inr rfl

theorem load_global_assign_spec (g : GlobalState) :
    (∀ g2, load_global_assign g = Except.ok g2 → g2.config_file = g.config_file) ∧
    load_global_assign g ≠ Except.error Abort.out_of_fuel := by
  unfold load_global_assign
  simp only
  split
  · next key value hk hv =>
    split_ifs
    · rcases stoi_or_minus_one_cases value with ⟨v, hv2⟩ | hv2 <;>
        simp [hv2, bind, Except.bind, pure, Except.pure]
    · rcases stoi_or_minus_one_cases value with ⟨v, hv2⟩ | hv2 <;>
        simp [hv2, bind, Except.bind, pure, Except.pure]
    · simp only [pure, Except.pure, Except.ok.injEq, ne_eq, reduceCtorEq, not_false_eq_true,
        and_true]
      intro g2 h2
      rw [← h2]
  · simp [throw, throwThe, MonadExceptOf.throw]

theorem load_global_loop_spec : ∀ (fuel : Nat) (g : GlobalState),
    stream_budget g.config_file ≤ fuel →
    (∀ r, load_global_loop fuel g = Except.ok r →
      stream_budget r.2.config_file ≤ stream_budget g.config_file) ∧
    load_global_loop fuel g ≠ Except.error Abort.out_of_fuel := by
  intro fuel
  induction fuel with
  | zero =>
    intro g hb
    have hf : g.config_file.failbit = true := by
      unfold stream_budget at hb
      by_contra hne
      simp only [hne, Bool.false_eq_true, if_false] at hb
      split_ifs at hb <;> omega
    unfold load_global_loop
    simp [IStream.good_for_loop, hf, pure, Except.pure]
  | succ fuel ih =>
    intro g hb
    by_cases hf : g.config_file.failbit = true
    · unfold load_global_loop
      simp [IStream.good_for_loop, hf, pure, Except.pure]
    · have hf' : g.config_file.failbit = false := by simpa using hf
      have hdec := getline_budget g.config_file g.line '\n' hf'
      unfold load_global_loop
      simp only [IStream.good_for_loop, hf', Bool.not_false, Bool.not_true, Bool.false_eq_true,
        if_false]
      split
      · simp [throw, throwThe, MonadExceptOf.throw]
      · next line hline =>
        split_ifs with h1 h2
        · have := ih { g with config_file := (getline g.config_file g.line '\n').1, line := line }
            (by simp only; omega)
          exact ⟨fun r hr => le_trans (this.1 r hr) (by simp only; omega), this.2⟩
        · split
          · simp [throw, throwThe, MonadExceptOf.throw]
          · next id hid =>
            simp only [pure, Except.pure, Except.ok.injEq, ne_eq, reduceCtorEq,
              not_false_eq_true, and_true]
            intro r hr
            rw [← hr]
            simp only
            omega
        · have hassign := load_global_assign_spec
            { g with config_file := (getline g.config_file g.line '\n').1, line := line }
          split
          · next e he =>
            simp only [throw, throwThe, MonadExceptOf.throw, ne_eq, Except.error.injEq,
              reduceCtorEq, false_implies, implies_true, true_and]
            intro hfu
            rw [hfu] at he
            exact hassign.2 he
          · next g2 hg2 =>
            have hcf := hassign.1 g2 hg2
            have := ih g2 (by rw [hcf]; simp only; omega)
            exact ⟨fun r hr => le_trans (this.1 r hr) (by rw [hcf]; simp only; omega), this.2⟩

theorem load_global_spec (cfg : Config) (config_file : IStream) (id : List Char) :
    (∀ r, load_global cfg config_file id = Except.ok r →
      stream_budget r.2.config_file ≤ stream_budget config_file) ∧
    load_global cfg config_file id ≠ Except.error Abort.out_of_fuel := by
  have hb : stream_budget config_file ≤ config_file.rest.length + 2 := by
    unfold stream_budget
    split_ifs <;> omega
  exact load_global_loop_spec _
    { config_file := config_file, line := [], key := [], value := [], id := id, cfg := cfg } hb

theorem tier_assign_spec (st : ReadState) :
    (∀ st2, tier_assign st = Except.ok st2 → st2.config_file = st.config_file) ∧
    tier_assign st ≠ Except.error Abort.out_of_fuel := by
  unfold tier_assign
  simp only
  split
  · next key value hk hv =>
    split_ifs
    · simp only [pure, Except.pure, Except.ok.injEq, ne_eq, reduceCtorEq, not_false_eq_true,
        and_true]
      intro g2 h2
      rw [← h2]
    · simp only [pure, Except.pure, Except.ok.injEq, ne_eq, reduceCtorEq, not_false_eq_true,
        and_true]
      intro g2 h2
      rw [← h2]
    · rcases stoi_or_minus_one_cases value with ⟨v, hv2⟩ | hv2 <;>
        simp [hv2, bind, Except.bind, pure, Except.pure]
    · simp only [pure, Except.pure, Except.ok.injEq, ne_eq, reduceCtorEq, not_false_eq_true,
        and_true]
      intro g2 h2
      rw [← h2]
  · simp [throw, throwThe, MonadExceptOf.throw]

theorem open_section_spec (wm0 : Int) (st : ReadState) :
    (∀ r, open_section wm0 st = Except.ok r →
      stream_budget r.2.config_file ≤ stream_budget st.config_file) ∧
    open_section wm0 st ≠ Except.error Abort.out_of_fuel := by
  unfold open_section
  split
  · simp [throw, throwThe, MonadExceptOf.throw]
  · next id hid =>
    split_ifs with hg
    · have hlg := load_global_spec st.cfg st.config_file id
      split
      · next e he =>
        simp only [throw, throwThe, MonadExceptOf.throw, ne_eq, Except.error.injEq,
          reduceCtorEq, false_implies, implies_true, true_and]
        intro hfu
        rw [hfu] at he
        exact hlg.2 he
      · next ret g hok =>
        have hle := hlg.1 (ret, g) hok
        split_ifs <;>
          simp only [pure, Except.pure, Except.ok.injEq, ne_eq, reduceCtorEq, not_false_eq_true,
            and_true] <;>
          intro r hr <;> rw [← hr] <;> exact hle
    · simp only [pure, Except.pure, Except.ok.injEq, ne_eq, reduceCtorEq, not_false_eq_true,
        and_true]
      intro r hr
      rw [← hr]

theorem read_loop_fuel (wm0 : Int) : ∀ (fuel : Nat) (st : ReadState),
    stream_budget st.config_file ≤ fuel →
    read_loop wm0 fuel st ≠ Except.error Abort.out_of_fuel := by
  intro fuel
  induction fuel with
  | zero =>
    intro st hb
    have hf : st.config_file.failbit = true := by
      unfold stream_budget at hb
      by_contra hne
      simp only [hne, Bool.false_eq_true, if_false] at hb
      split_ifs at hb <;> omega
    unfold read_loop
    simp [IStream.good_for_loop, hf, pure, Except.pure]
  | succ fuel ih =>
    intro st hb
    by_cases hf : st.config_file.failbit = true
    · unfold read_loop
      simp [IStream.good_for_loop, hf, pure, Except.pure]
    · have hf' : st.config_file.failbit = false := by simpa using hf
      have hdec := getline_budget st.config_file st.line '\n' hf'
      unfold read_loop
      simp only [IStream.good_for_loop, hf', Bool.not_false, Bool.not_true, Bool.false_eq_true,
        if_false]
      split
      · simp [throw, throwThe, MonadExceptOf.throw]
      · next line hline =>
        split_ifs with h1 h2 h3
        · exact ih _ (by simp only; omega)
        · have hos := open_section_spec wm0
            { st with config_file := (getline st.config_file st.line '\n').1, line := line }
          split
          · next e he =>
            simp only [throw, throwThe, MonadExceptOf.throw, ne_eq, Except.error.injEq]
            intro hfu
            rw [hfu] at he
            exact hos.2 he
          · simp [pure, Except.pure]
          · next st2 hst2 =>
            have hle := hos.1 _ hst2
            exact ih st2 (by simp only at hle; omega)
        · have hta := tier_assign_spec
            { st with config_file := (getline st.config_file st.line '\n').1, line := line }
          split
          · next e he =>
            simp only [throw, throwThe, MonadExceptOf.throw, ne_eq, Except.error.injEq]
            intro hfu
            rw [hfu] at he
            exact hta.2 he
          · next st2 hst2 =>
            have hcf := hta.1 st2 hst2
            exact ih st2 (by rw [hcf]; simp only; omega)
        · exact ih _ (by simp only; omega)

/-- The constructor always comes back from its reading loop: whatever the text of the
configuration file, the iterations allotted to the loops are enough. -/
theorem Config_reading_terminates (cfg0 : Config) (wm0 : Int) (is_directory : String → Bool)
    (log_level_override : Option Int) (config_path : String) (text : List Char)
    (tiers : List Tier) :
    Config.Config cfg0 wm0 is_directory log_level_override config_path text tiers
      ≠ Except.error Abort.out_of_fuel := by
  have h := read_loop_fuel wm0 (text.length + 2)
    { config_file := IStream.open text, line := [], key := [], value := [],
      tiers := tiers, tptr := false, cfg := cfg0 }
    (by simp [stream_budget, IStream.open])
  unfold Config.Config
  split
  · next e he =>
    simp only [throw, throwThe, MonadExceptOf.throw, ne_eq, Except.error.injEq]
    intro hfu
    rw [hfu] at he
    exact h he
  · simp [pure, Except.pure]

end Autotier
